import Mathlib

/-! Seat-Heater-Control-System: a shallow embedding of `main.c`.

The C program is a set of FreeRTOS tasks and two GPIO interrupt handlers
communicating through global variables, capacity-1 queues and an event group.
Every task body is an infinite loop; one pass through the loop body is
embedded as a function on the record `Sys` of all global state the program
touches.

Conventions of the embedding.

* `uint8` / `uint32` variables are natural numbers; every C operation that can
  wrap is followed by an explicit `% 2 ^ 8` / `% 2 ^ 32`.
* `float32` variables hold finite values (they come from an ADC count), which
  are modelled by the rational numbers they denote.  Comparisons of finite
  floats are exact.  The one rounded operation of the program, the float32
  evaluation of `DesiredTemp - CurrentTemp`, is a parameter `fsub` of the
  task's embedding; `float32Sub` is that operation as IEEE 754 binary32
  defines it (round to nearest, ties to even).
* A variable of the enumeration type `UserHeatInput` is an integer; the values
  of its enumerators `OFF`, `LOW`, `MEDIUM`, `HIGH` are declared in a header
  that is not part of the sources and are the parameter `HeatLevels`.
* `xSemaphoreTake (m, portMAX_DELAY)` returns `pdTRUE` once the mutex is free;
  a loop pass is embedded as running with the mutexes it takes free, so the
  guarded block is executed.  The lock-time accumulators (`...LT`) depend only
  on the tick count and influence nothing else; they are left out.
* A loop pass that would block for ever on a queue or on the event group in
  the given state (no other task running), or whose behaviour is undefined in
  C (division by zero), yields `none`.
-/

namespace SeatHeater

/-! ## Data model -/

/-- Values of the enumerators of the C type `UserHeatInput`.  The enumeration is
declared in a header that is not among the sources, so the four values are
parameters of the embedding. -/
structure HeatLevels where
  OFF : Int
  LOW : Int
  MEDIUM : Int
  HIGH : Int

/-- The C enumeration `HeatIntensity`.  Its five enumerators are the case labels
of the `switch` statements in `vHeaterLedsControllerTask` and `vDisplayTask`,
so they are pairwise distinct. -/
inductive HeatIntensity where
  | ERROR
  | INTENSITYOFF
  | LOWINTENSITY
  | MEDIUMINTENSITY
  | HIGHINTENSITY
  deriving DecidableEq, Repr

/-- The global state of the program: the global variables of `main.c`, the
kernel objects created in `main`, and the hardware state the code reads or
writes (GPIO raw-interrupt registers, the six indicator outputs, the bytes
transmitted on UART0). -/
structure Sys where
  /-- `uint8 DriverState`. -/
  DriverState : Nat
  /-- `uint8 PassengerState`. -/
  PassengerState : Nat
  /-- `UserHeatInput DesiredTempDriver`. -/
  DesiredTempDriver : Int
  /-- `UserHeatInput DesiredTempPassenger`. -/
  DesiredTempPassenger : Int
  /-- `float32 CurrentTempDriver`. -/
  CurrentTempDriver : ℚ
  /-- `float32 CurrentTempPassenger`. -/
  CurrentTempPassenger : ℚ
  /-- `HeatIntensity heatIntensity`. -/
  heatIntensity : HeatIntensity
  /-- `uint32 ullTasksExecutionTime[13]`, as a map from index to value. -/
  ullTasksExecutionTime : Nat → Nat
  /-- Bits of the event group `eventTempSet`. -/
  eventTempSet : Nat
  /-- Slot of the capacity-1 queue `Reading_DisplayDriver` (one byte). -/
  Reading_DisplayDriver : Option Nat
  /-- Slot of the capacity-1 queue `Reading_DisplayPassenger` (one byte). -/
  Reading_DisplayPassenger : Option Nat
  /-- Slot of the capacity-1 queue `Controller_HeatingDriver`. -/
  Controller_HeatingDriver : Option HeatIntensity
  /-- Slot of the capacity-1 queue `Controller_HeatingPassenger`. -/
  Controller_HeatingPassenger : Option HeatIntensity
  /-- Slot of the capacity-1 queue `Controller_DisplayDriver`. -/
  Controller_DisplayDriver : Option HeatIntensity
  /-- Slot of the capacity-1 queue `Controller_DisplayPassenger`. -/
  Controller_DisplayPassenger : Option HeatIntensity
  /-- Raw interrupt status register of GPIO port F. -/
  GPIO_PORTF_RIS_REG : Nat
  /-- Raw interrupt status register of GPIO port B. -/
  GPIO_PORTB_RIS_REG : Nat
  /-- Red indicator of the driver seat. -/
  RedLed1 : Bool
  /-- Blue indicator of the driver seat. -/
  BlueLed1 : Bool
  /-- Green indicator of the driver seat. -/
  GreenLed1 : Bool
  /-- Red indicator of the passenger seat. -/
  RedLed2 : Bool
  /-- Blue indicator of the passenger seat. -/
  BlueLed2 : Bool
  /-- Green indicator of the passenger seat. -/
  GreenLed2 : Bool
  /-- Characters transmitted on UART0 so far, oldest first. -/
  uart : List Char

/-- `#define ISDRIVER 0`. -/
def ISDRIVER : Nat := 0

/-- `#define ISPASSENGER 1`. -/
def ISPASSENGER : Nat := 1

/-- `#define mainSW1_INTERRUPT_BIT ( 1UL << 0UL )`. -/
def mainSW1_INTERRUPT_BIT : Nat := 1 <<< 0

/-- `#define mainSW2_INTERRUPT_BIT ( 1UL << 1UL )`. -/
def mainSW2_INTERRUPT_BIT : Nat := 1 <<< 1

/-! ## Heater Control Task -/

/-- Rounding of a rational to the nearest integer, a tie going to the even
neighbour: the rounding direction of float32 arithmetic. -/
def roundTiesToEven (q : ℚ) : Int :=
  if q - ⌊q⌋ < 1 / 2 then ⌊q⌋
  else if q - ⌊q⌋ > 1 / 2 then ⌊q⌋ + 1
  else if ⌊q⌋ % 2 = 0 then ⌊q⌋
  else ⌊q⌋ + 1

/-- The exponent of the spacing of float32 values around `x`: a normal value with
`2 ^ e <= |x| < 2 ^ (e + 1)` has a 24-bit significand, so the spacing is
`2 ^ (e - 23)`; below `2 ^ (-126)` (subnormal values) the spacing stays
`2 ^ (-149)`. -/
def float32UlpExponent (x : ℚ) : Int :=
  max (Int.log 2 |x|) (-126) - 23

/-- The float32 value of a rational: the nearest multiple of the spacing around it,
ties to even.  (No result of the program comes near the largest float32, so
overflow to infinity is left out.) -/
def float32Round (x : ℚ) : ℚ :=
  (roundTiesToEven (x / (2 : ℚ) ^ float32UlpExponent x) : ℚ) * (2 : ℚ) ^ float32UlpExponent x

/-- The C expression `DesiredTemp - CurrentTemp` of lines 401-411 and 450-460:
the `int`-valued `DesiredTemp` is converted to float32 and the float32
`CurrentTemp` is subtracted from it in float32 arithmetic. -/
def float32Sub (DesiredTemp : Int) (CurrentTemp : ℚ) : ℚ :=
  float32Round (float32Round (DesiredTemp : ℚ) - CurrentTemp)

/-- The rationals that are float32 values: a significand of at most 24 bits times a
power of two not below `2 ^ (-149)`. -/
def IsFloat32 (x : ℚ) : Prop :=
  ∃ m k : Int, |m| < 2 ^ 24 ∧ -149 ≤ k ∧ x = (m : ℚ) * (2 : ℚ) ^ k

/-- The `if` / `else if` chain of `vHeaterControllerTask` (lines 397-418 for the
driver, 445-467 for the passenger; the two copies are textually the same) that
assigns `heatIntensity`.  `fsub DesiredTemp CurrentTemp` is the float32 value
of the C expression `DesiredTemp - CurrentTemp`. -/
def computeHeatIntensity (fsub : Int → ℚ → ℚ) (CurrentTemp : ℚ) (DesiredTemp : Int) :
    HeatIntensity :=
  if CurrentTemp < 5 ∨ CurrentTemp > 40 then
    HeatIntensity.ERROR
  else if fsub DesiredTemp CurrentTemp ≥ 10 then
    HeatIntensity.HIGHINTENSITY
  else if fsub DesiredTemp CurrentTemp ≥ 5 ∧ fsub DesiredTemp CurrentTemp < 10 then
    HeatIntensity.MEDIUMINTENSITY
  else if fsub DesiredTemp CurrentTemp ≥ 2 ∧ fsub DesiredTemp CurrentTemp < 5 then
    HeatIntensity.LOWINTENSITY
  else
    HeatIntensity.INTENSITYOFF

/-- Blocking `xQueueSend` on a capacity-1 queue: the item is stored when the
slot is empty; on a full slot the sender blocks (`none`). -/
def xQueueSend {α : Type} (slot : Option α) (item : α) : Option (Option α) :=
  match slot with
  | none => some (some item)
  | some _ => none

/-- Blocking `xQueueReceive` on a capacity-1 queue: the item is taken out when
the slot is full; on an empty slot the receiver blocks (`none`). -/
def xQueueReceive {α : Type} (slot : Option α) : Option (α × Option α) :=
  match slot with
  | some item => some (item, none)
  | none => none

/-- One pass of the loop body of `vHeaterControllerTask` (lines 377-473), up to
the `vTaskDelay`.  `SeatSelect` is the task's local of that name. -/
def vHeaterControllerTask (fsub : Int → ℚ → ℚ) (SeatSelect : Nat) (s : Sys) : Option Sys :=
  if SeatSelect = ISDRIVER then
    let CurrentTemp := s.CurrentTempDriver
    let DesiredTemp := s.DesiredTempDriver
    let s1 := { s with heatIntensity := computeHeatIntensity fsub CurrentTemp DesiredTemp }
    match xQueueSend s1.Controller_HeatingDriver s1.heatIntensity with
    | none => none
    | some q1 =>
      let s2 := { s1 with Controller_HeatingDriver := q1 }
      match xQueueSend s2.Controller_DisplayDriver s2.heatIntensity with
      | none => none
      | some q2 => some { s2 with Controller_DisplayDriver := q2 }
  else if SeatSelect = ISPASSENGER then
    let CurrentTemp := s.CurrentTempPassenger
    let DesiredTemp := s.DesiredTempPassenger
    let s1 := { s with heatIntensity := computeHeatIntensity fsub CurrentTemp DesiredTemp }
    match xQueueSend s1.Controller_HeatingPassenger s1.heatIntensity with
    | none => none
    | some q1 =>
      let s2 := { s1 with Controller_HeatingPassenger := q1 }
      match xQueueSend s2.Controller_DisplayPassenger s2.heatIntensity with
      | none => none
      | some q2 => some { s2 with Controller_DisplayPassenger := q2 }
  else
    some s

/-! ## Temperature Sampling Task -/

/-- One pass of the loop body of `vTempReadingTask` (lines 260-288), up to the
`vTaskDelay`.  `adc_value` is the float32 value the pass computes from the sensor
sample (lines 260-261).  The queues `Reading_DisplayDriver` and
`Reading_DisplayPassenger` are created with items of `sizeof(uint8)`, one byte
(lines 136-137), so `xQueueSend (..., &adc_value, ...)` copies one byte starting
at the address of `adc_value`; `firstByte` gives that byte, the first of the
object representation of a float32 value. -/
def vTempReadingTask (firstByte : ℚ → Nat) (SeatSelect : Nat) (adc_value : ℚ) (s : Sys) :
    Option Sys :=
  if SeatSelect = ISDRIVER then
    let s1 := { s with CurrentTempDriver := adc_value }
    match xQueueSend s1.Reading_DisplayDriver (firstByte adc_value % 2 ^ 8) with
    | none => none
    | some q => some { s1 with Reading_DisplayDriver := q }
  else if SeatSelect = ISPASSENGER then
    let s1 := { s with CurrentTempPassenger := adc_value }
    match xQueueSend s1.Reading_DisplayPassenger (firstByte adc_value % 2 ^ 8) with
    | none => none
    | some q => some { s1 with Reading_DisplayPassenger := q }
  else
    some s

/-! ## Interrupt handlers -/

/-- Modelled from the spec: `xEventGroupSetBitsFromISR` of the FreeRTOS kernel
(not among the sources) sets the given bits in the event group. -/
def xEventGroupSetBitsFromISR (bits uxBitsToSet : Nat) : Nat :=
  bits ||| uxBitsToSet

/-- Modelled from the spec: a read of a GPIO interrupt-clear register (declared in
the absent `tm4c123gh6pm_registers.h`); the register is write-only and reads
as zero. -/
def GPIO_ICR_read : Nat := 0

/-- Modelled from the spec: a write of `v` to a GPIO interrupt-clear register
clears, in the raw interrupt status `ris`, every bit that is set in `v` and
leaves the other bits as they are. -/
def GPIO_ICR_write (ris v : Nat) : Nat :=
  ris ^^^ (ris &&& v)

/-- `GPIOPortF_Handler` (lines 213-232). -/
def GPIOPortF_Handler (s : Sys) : Sys :=
  if s.GPIO_PORTF_RIS_REG &&& (1 <<< 0) ≠ 0 then
    let s1 := { s with
      eventTempSet := xEventGroupSetBitsFromISR s.eventTempSet mainSW1_INTERRUPT_BIT }
    let s2 := { s1 with DriverState := (s1.DriverState + 1) % 2 ^ 8 }
    let s3 := { s2 with DriverState := s2.DriverState % 4 }
    { s3 with GPIO_PORTF_RIS_REG :=
        GPIO_ICR_write s3.GPIO_PORTF_RIS_REG (GPIO_ICR_read ||| (1 <<< 0)) }
  else if s.GPIO_PORTF_RIS_REG &&& (1 <<< 4) ≠ 0 then
    let s1 := { s with
      eventTempSet := xEventGroupSetBitsFromISR s.eventTempSet mainSW2_INTERRUPT_BIT }
    let s2 := { s1 with PassengerState := (s1.PassengerState + 1) % 2 ^ 8 }
    let s3 := { s2 with PassengerState := s2.PassengerState % 4 }
    { s3 with GPIO_PORTF_RIS_REG :=
        GPIO_ICR_write s3.GPIO_PORTF_RIS_REG (GPIO_ICR_read ||| (1 <<< 4)) }
  else
    s

/-- `GPIOPortB_Handler` (lines 234-245). -/
def GPIOPortB_Handler (s : Sys) : Sys :=
  if s.GPIO_PORTB_RIS_REG &&& (1 <<< 0) ≠ 0 then
    let s1 := { s with
      eventTempSet := xEventGroupSetBitsFromISR s.eventTempSet mainSW1_INTERRUPT_BIT }
    let s2 := { s1 with DriverState := (s1.DriverState + 1) % 2 ^ 8 }
    let s3 := { s2 with DriverState := s2.DriverState % 4 }
    { s3 with GPIO_PORTB_RIS_REG :=
        GPIO_ICR_write s3.GPIO_PORTB_RIS_REG (GPIO_ICR_read ||| (1 <<< 0)) }
  else
    s

/-! ## Setpoint Task -/

/-- Modelled from the spec: `xEventGroupWaitBits` of the FreeRTOS kernel with an
unbounded wait.  When the unblock condition holds it returns the bits as they
were at that moment, paired here with the bits left in the group (the awaited
bits cleared when `xClearOnExit`); otherwise the caller stays blocked. -/
def xEventGroupWaitBits (bits uxBitsToWaitFor : Nat) (xClearOnExit xWaitForAllBits : Bool) :
    Option (Nat × Nat) :=
  let met : Bool :=
    if xWaitForAllBits then decide (bits &&& uxBitsToWaitFor = uxBitsToWaitFor)
    else decide (bits &&& uxBitsToWaitFor ≠ 0)
  if met then
    some (bits, if xClearOnExit then bits ^^^ (bits &&& uxBitsToWaitFor) else bits)
  else
    none

/-- The `switch` of `vTempSettingTask` on a seat's cycle counter (lines 315-329
for the driver, 342-356 for the passenger; the two copies are textually the
same).  It has no `default`: for a counter value other than 0, 1, 2, 3 the
desired level keeps its old value. -/
def heatLevelSwitch (L : HeatLevels) (State : Nat) (DesiredTemp : Int) : Int :=
  match State with
  | 0 => L.OFF
  | 1 => L.LOW
  | 2 => L.MEDIUM
  | 3 => L.HIGH
  | _ => DesiredTemp

/-- One pass of the loop body of `vTempSettingTask` (lines 303-361). -/
def vTempSettingTask (L : HeatLevels) (s : Sys) : Option Sys :=
  let xBitsToWaitFor := mainSW1_INTERRUPT_BIT ||| mainSW2_INTERRUPT_BIT
  match xEventGroupWaitBits s.eventTempSet xBitsToWaitFor true false with
  | none => none
  | some (xEventGroupValue, bits) =>
    let s0 := { s with eventTempSet := bits }
    let s1 :=
      if xEventGroupValue &&& mainSW1_INTERRUPT_BIT ≠ 0 then
        { s0 with DesiredTempDriver := heatLevelSwitch L s0.DriverState s0.DesiredTempDriver }
      else s0
    let s2 :=
      if xEventGroupValue &&& mainSW2_INTERRUPT_BIT ≠ 0 then
        { s1 with
          DesiredTempPassenger := heatLevelSwitch L s1.PassengerState s1.DesiredTempPassenger }
      else s1
    some s2

/-! ## LED Indicator Task -/

/-- Modelled from the spec: `GPIO_RedLed1On` of the absent GPIO driver switches the
driver seat's red output on. -/
def GPIO_RedLed1On (s : Sys) : Sys := { s with RedLed1 := true }

/-- Modelled from the spec: `GPIO_RedLed1Off` of the absent GPIO driver switches the
driver seat's red output off. -/
def GPIO_RedLed1Off (s : Sys) : Sys := { s with RedLed1 := false }

/-- Modelled from the spec: `GPIO_BlueLed1On` of the absent GPIO driver switches the
driver seat's blue output on. -/
def GPIO_BlueLed1On (s : Sys) : Sys := { s with BlueLed1 := true }

/-- Modelled from the spec: `GPIO_BlueLed1Off` of the absent GPIO driver switches the
driver seat's blue output off. -/
def GPIO_BlueLed1Off (s : Sys) : Sys := { s with BlueLed1 := false }

/-- Modelled from the spec: `GPIO_GreenLed1On` of the absent GPIO driver switches the
driver seat's green output on. -/
def GPIO_GreenLed1On (s : Sys) : Sys := { s with GreenLed1 := true }

/-- Modelled from the spec: `GPIO_GreenLed1Off` of the absent GPIO driver switches
the driver seat's green output off. -/
def GPIO_GreenLed1Off (s : Sys) : Sys := { s with GreenLed1 := false }

/-- Modelled from the spec: `GPIO_RedLed2On` of the absent GPIO driver switches the
passenger seat's red output on. -/
def GPIO_RedLed2On (s : Sys) : Sys := { s with RedLed2 := true }

/-- Modelled from the spec: `GPIO_RedLed2Off` of the absent GPIO driver switches the
passenger seat's red output off. -/
def GPIO_RedLed2Off (s : Sys) : Sys := { s with RedLed2 := false }

/-- Modelled from the spec: `GPIO_BlueLed2On` of the absent GPIO driver switches the
passenger seat's blue output on. -/
def GPIO_BlueLed2On (s : Sys) : Sys := { s with BlueLed2 := true }

/-- Modelled from the spec: `GPIO_BlueLed2Off` of the absent GPIO driver switches
the passenger seat's blue output off. -/
def GPIO_BlueLed2Off (s : Sys) : Sys := { s with BlueLed2 := false }

/-- Modelled from the spec: `GPIO_GreenLed2On` of the absent GPIO driver switches
the passenger seat's green output on. -/
def GPIO_GreenLed2On (s : Sys) : Sys := { s with GreenLed2 := true }

/-- Modelled from the spec: `GPIO_GreenLed2Off` of the absent GPIO driver switches
the passenger seat's green output off. -/
def GPIO_GreenLed2Off (s : Sys) : Sys := { s with GreenLed2 := false }

/-- One pass of the loop body of `vHeaterLedsControllerTask` (lines 487-562). -/
def vHeaterLedsControllerTask (SeatSelect : Nat) (s : Sys) : Option Sys :=
  if SeatSelect = ISDRIVER then
    match xQueueReceive s.Controller_HeatingDriver with
    | none => none
    | some (selectedHeatingIntensity, q) =>
      let s1 := { s with Controller_HeatingDriver := q }
      match selectedHeatingIntensity with
      | HeatIntensity.ERROR =>
        some (GPIO_GreenLed1Off (GPIO_BlueLed1Off (GPIO_RedLed1On s1)))
      | HeatIntensity.INTENSITYOFF =>
        some (GPIO_GreenLed1Off (GPIO_BlueLed1Off (GPIO_RedLed1Off s1)))
      | HeatIntensity.LOWINTENSITY =>
        some (GPIO_GreenLed1On (GPIO_BlueLed1Off (GPIO_RedLed1Off s1)))
      | HeatIntensity.MEDIUMINTENSITY =>
        some (GPIO_GreenLed1Off (GPIO_BlueLed1On (GPIO_RedLed1Off s1)))
      | HeatIntensity.HIGHINTENSITY =>
        some (GPIO_GreenLed1On (GPIO_BlueLed1On (GPIO_RedLed1Off s1)))
  else if SeatSelect = ISPASSENGER then
    match xQueueReceive s.Controller_HeatingPassenger with
    | none => none
    | some (selectedHeatingIntensity, q) =>
      let s1 := { s with Controller_HeatingPassenger := q }
      match selectedHeatingIntensity with
      | HeatIntensity.ERROR =>
        some (GPIO_GreenLed2Off (GPIO_BlueLed2Off (GPIO_RedLed2On s1)))
      | HeatIntensity.INTENSITYOFF =>
        some (GPIO_GreenLed2Off (GPIO_BlueLed2Off (GPIO_RedLed2Off s1)))
      | HeatIntensity.LOWINTENSITY =>
        some (GPIO_GreenLed2On (GPIO_BlueLed2Off (GPIO_RedLed2Off s1)))
      | HeatIntensity.MEDIUMINTENSITY =>
        some (GPIO_GreenLed2Off (GPIO_BlueLed2On (GPIO_RedLed2Off s1)))
      | HeatIntensity.HIGHINTENSITY =>
        some (GPIO_GreenLed2On (GPIO_BlueLed2On (GPIO_RedLed2Off s1)))
  else
    some s

/-! ## Display Task -/

/-- Modelled from the spec: `UART0_SendString` of the absent UART driver transmits
the characters of the string in order. -/
def UART0_SendString (str : String) (s : Sys) : Sys :=
  { s with uart := s.uart ++ str.toList }

/-- Modelled from the spec: `UART0_SendByte` of the absent UART driver transmits
the one byte it is given (its `uint8` argument). -/
def UART0_SendByte (data : Nat) (s : Sys) : Sys :=
  { s with uart := s.uart ++ [Char.ofNat (data % 2 ^ 8)] }

/-- Modelled from the spec: `UART0_SendInteger` of the absent UART driver transmits
the decimal digits of the number. -/
def UART0_SendInteger (n : Nat) (s : Sys) : Sys :=
  { s with uart := s.uart ++ (Nat.repr n).toList }

/-- The `switch` of `vDisplayTask` on the received heat state (lines 608-625 and
665-682); the two copies are textually the same. -/
def sendHeatState (HeatState : HeatIntensity) (s : Sys) : Sys :=
  match HeatState with
  | HeatIntensity.ERROR => UART0_SendString "NO Intensity due to error" s
  | HeatIntensity.INTENSITYOFF => UART0_SendString "NO Intensity" s
  | HeatIntensity.LOWINTENSITY => UART0_SendString "LOW Intensity" s
  | HeatIntensity.MEDIUMINTENSITY => UART0_SendString "MEDIUM Intensity" s
  | HeatIntensity.HIGHINTENSITY => UART0_SendString "HIGH Intensity" s

/-- One pass of the loop body of `vDisplayTask` (lines 577-690).  The desired
level is an `int`-valued enumeration variable; handing it to `UART0_SendByte`
converts it to `uint8`. -/
def vDisplayTask (SeatSelect : Nat) (s : Sys) : Option Sys :=
  if SeatSelect = ISDRIVER then
    match xQueueReceive s.Reading_DisplayDriver with
    | none => none
    | some (DriverCurrentTemp, q1) =>
      let s1 := { s with Reading_DisplayDriver := q1 }
      match xQueueReceive s1.Controller_DisplayDriver with
      | none => none
      | some (DriverHeatState, q2) =>
        let s2 := { s1 with Controller_DisplayDriver := q2 }
        let DriverHeatLevel := s2.DesiredTempDriver
        let s3 := UART0_SendString "Driver:" s2
        let s4 := UART0_SendString "\nCurrent Temperature = " s3
        let s5 := UART0_SendByte DriverCurrentTemp s4
        let s6 := UART0_SendString "\nRequired Heat Level = " s5
        let s7 := UART0_SendByte (DriverHeatLevel % 2 ^ 8).toNat s6
        let s8 := UART0_SendString "\nThe Heater is Working with " s7
        some (sendHeatState DriverHeatState s8)
  else if SeatSelect = ISPASSENGER then
    match xQueueReceive s.Reading_DisplayPassenger with
    | none => none
    | some (PassengerCurrentTemp, q1) =>
      let s1 := { s with Reading_DisplayPassenger := q1 }
      match xQueueReceive s1.Controller_DisplayPassenger with
      | none => none
      | some (PassengerHeatState, q2) =>
        let s2 := { s1 with Controller_DisplayPassenger := q2 }
        let PassengerHeatLevel := s2.DesiredTempPassenger
        let s3 := UART0_SendString "Passenger:" s2
        let s4 := UART0_SendString "\nCurrent Temperature = " s3
        let s5 := UART0_SendByte PassengerCurrentTemp s4
        let s6 := UART0_SendString "\nRequired Heat Level = " s5
        let s7 := UART0_SendByte (PassengerHeatLevel % 2 ^ 8).toNat s6
        let s8 := UART0_SendString "\nThe Heater is Working with " s7
        some (sendHeatState PassengerHeatState s8)
  else
    some s

/-! ## Runtime Monitor Task -/

/-- The summation loop of `vRunTimeMeasurementsTask` (lines 706-711):
`ullTotalTasksTime = 0` and then, for `ucCounter` from 1 to 11,
`ullTotalTasksTime += ullTasksExecutionTime[ucCounter]` in `uint32`. -/
def ullTotalTasksTime (ullTasksExecutionTime : Nat → Nat) : Nat :=
  (List.range' 1 11).foldl
    (fun total ucCounter => (total + ullTasksExecutionTime ucCounter) % 2 ^ 32) 0

/-- The statement `ucCPU_Load = (ullTotalTasksTime * 100) / GPTM_WTimer0Read();`
(line 712): a `uint32` product, an unsigned division by the value `reading`
returned by `GPTM_WTimer0Read`, and the conversion of the quotient to `uint8`.
Division by zero is undefined. -/
def ucCPU_Load (ullTasksExecutionTime : Nat → Nat) (reading : Nat) : Option Nat :=
  if reading = 0 then none
  else some ((ullTotalTasksTime ullTasksExecutionTime * 100) % 2 ^ 32 / reading % 2 ^ 8)

/-- One pass of the loop body of `vRunTimeMeasurementsTask` (lines 706-724);
`reading` is the value `GPTM_WTimer0Read` returns in this pass. -/
def vRunTimeMeasurementsTask (reading : Nat) (s : Sys) : Option Sys :=
  match ucCPU_Load s.ullTasksExecutionTime reading with
  | none => none
  | some load =>
    some (UART0_SendString "% \r\n" (UART0_SendInteger load (UART0_SendString "CPU Load is " s)))

/-! ## Synchronisation skeleton of the task bodies -/

/-- The five mutexes created in `main` (lines 129-133). -/
inductive Mutex where
  | CurrentTempMutexDriver
  | CurrentTempMutexPassenger
  | DesiredTempMutexDriver
  | DesiredTempMutexPassenger
  | UARTMutex
  deriving DecidableEq, Repr

/-- The six queues created in `main` (lines 136-141). -/
inductive Queue where
  | Reading_DisplayDriver
  | Reading_DisplayPassenger
  | Controller_HeatingDriver
  | Controller_HeatingPassenger
  | Controller_DisplayDriver
  | Controller_DisplayPassenger
  deriving DecidableEq, Repr

/-- A kernel call of a task body that takes or gives a mutex or at which the task
can block: `xSemaphoreTake` with its outcome (`true` for `pdTRUE`),
`xSemaphoreGive`, `xQueueSend`, `xQueueReceive` with its outcome,
`xEventGroupWaitBits`, and `vTaskDelay` / `vTaskDelayUntil`. -/
inductive SyncOp where
  | take (m : Mutex) (taken : Bool)
  | give (m : Mutex)
  | send (q : Queue)
  | receive (q : Queue) (received : Bool)
  | waitBits
  | delay
  deriving DecidableEq, Repr

/-- The kernel calls of one pass of the loop body of `vTempReadingTask`, in program
order (take 266 / 278, give 269 / 282, send 274 / 287, delay 290); `taken` is the
outcome of the `xSemaphoreTake`. -/
def vTempReadingTask_sync (SeatSelect : Nat) (taken : Bool) : List SyncOp :=
  (if SeatSelect = ISDRIVER then
    (if taken then
      [SyncOp.take Mutex.CurrentTempMutexDriver true,
       SyncOp.give Mutex.CurrentTempMutexDriver]
    else [SyncOp.take Mutex.CurrentTempMutexDriver false]) ++
    [SyncOp.send Queue.Reading_DisplayDriver]
  else if SeatSelect = ISPASSENGER then
    (if taken then
      [SyncOp.take Mutex.CurrentTempMutexPassenger true,
       SyncOp.give Mutex.CurrentTempMutexPassenger]
    else [SyncOp.take Mutex.CurrentTempMutexPassenger false]) ++
    [SyncOp.send Queue.Reading_DisplayPassenger]
  else []) ++
  [SyncOp.delay]

/-- The kernel calls of one pass of the loop body of `vTempSettingTask`, in program
order (wait 304, take 313, give 330, take 339, give 357); `xEventGroupValue` is
what the wait returned, the two flags are the outcomes of the takes. -/
def vTempSettingTask_sync (xEventGroupValue : Nat) (takenDriver takenPassenger : Bool) :
    List SyncOp :=
  [SyncOp.waitBits] ++
  (if xEventGroupValue &&& mainSW1_INTERRUPT_BIT ≠ 0 then
    (if takenDriver then
      [SyncOp.take Mutex.DesiredTempMutexDriver true,
       SyncOp.give Mutex.DesiredTempMutexDriver]
    else [SyncOp.take Mutex.DesiredTempMutexDriver false])
  else []) ++
  (if xEventGroupValue &&& mainSW2_INTERRUPT_BIT ≠ 0 then
    (if takenPassenger then
      [SyncOp.take Mutex.DesiredTempMutexPassenger true,
       SyncOp.give Mutex.DesiredTempMutexPassenger]
    else [SyncOp.take Mutex.DesiredTempMutexPassenger false])
  else [])

/-- The kernel calls of one pass of the loop body of `vHeaterControllerTask`, in
program order (take 380 / 426, give 383 / 430, take 389 / 436, give 392 / 440,
sends 420-421 / 469-472, delay 475). -/
def vHeaterControllerTask_sync (SeatSelect : Nat) (takenCurrent takenDesired : Bool) :
    List SyncOp :=
  (if SeatSelect = ISDRIVER then
    (if takenCurrent then
      [SyncOp.take Mutex.CurrentTempMutexDriver true,
       SyncOp.give Mutex.CurrentTempMutexDriver]
    else [SyncOp.take Mutex.CurrentTempMutexDriver false]) ++
    (if takenDesired then
      [SyncOp.take Mutex.DesiredTempMutexDriver true,
       SyncOp.give Mutex.DesiredTempMutexDriver]
    else [SyncOp.take Mutex.DesiredTempMutexDriver false]) ++
    [SyncOp.send Queue.Controller_HeatingDriver, SyncOp.send Queue.Controller_DisplayDriver]
  else if SeatSelect = ISPASSENGER then
    (if takenCurrent then
      [SyncOp.take Mutex.CurrentTempMutexPassenger true,
       SyncOp.give Mutex.CurrentTempMutexPassenger]
    else [SyncOp.take Mutex.CurrentTempMutexPassenger false]) ++
    (if takenDesired then
      [SyncOp.take Mutex.DesiredTempMutexPassenger true,
       SyncOp.give Mutex.DesiredTempMutexPassenger]
    else [SyncOp.take Mutex.DesiredTempMutexPassenger false]) ++
    [SyncOp.send Queue.Controller_HeatingPassenger,
     SyncOp.send Queue.Controller_DisplayPassenger]
  else []) ++
  [SyncOp.delay]

/-- The kernel calls of one pass of the loop body of `vDisplayTask`, in program
order (receives 579 / 636 and 582 / 639, take 586 / 643, give 590 / 647, take
597 / 654, give 627 / 684); the flags are the outcomes of the two receives and of
the two takes.  Between the take and the give of `UARTMutex` the body only calls
the UART driver. -/
def vDisplayTask_sync (SeatSelect : Nat)
    (receivedTemp receivedState takenDesired takenUart : Bool) : List SyncOp :=
  if SeatSelect = ISDRIVER then
    [SyncOp.receive Queue.Reading_DisplayDriver receivedTemp] ++
    (if receivedTemp then
      [SyncOp.receive Queue.Controller_DisplayDriver receivedState] ++
      (if receivedState then
        (if takenDesired then
          [SyncOp.take Mutex.DesiredTempMutexDriver true,
           SyncOp.give Mutex.DesiredTempMutexDriver]
        else [SyncOp.take Mutex.DesiredTempMutexDriver false]) ++
        (if takenUart then
          [SyncOp.take Mutex.UARTMutex true, SyncOp.give Mutex.UARTMutex]
        else [SyncOp.take Mutex.UARTMutex false])
      else [])
    else [])
  else if SeatSelect = ISPASSENGER then
    [SyncOp.receive Queue.Reading_DisplayPassenger receivedTemp] ++
    (if receivedTemp then
      [SyncOp.receive Queue.Controller_DisplayPassenger receivedState] ++
      (if receivedState then
        (if takenDesired then
          [SyncOp.take Mutex.DesiredTempMutexPassenger true,
           SyncOp.give Mutex.DesiredTempMutexPassenger]
        else [SyncOp.take Mutex.DesiredTempMutexPassenger false]) ++
        (if takenUart then
          [SyncOp.take Mutex.UARTMutex true, SyncOp.give Mutex.UARTMutex]
        else [SyncOp.take Mutex.UARTMutex false])
      else [])
    else [])
  else []

/-- The kernel calls of one pass of the loop body of `vRunTimeMeasurementsTask`, in
program order (`vTaskDelayUntil` 707, take 715, give 721).  The `vTaskDelay` of
line 697 precedes the loop, with no mutex taken yet. -/
def vRunTimeMeasurementsTask_sync (takenUart : Bool) : List SyncOp :=
  [SyncOp.delay] ++
  (if takenUart then [SyncOp.take Mutex.UARTMutex true, SyncOp.give Mutex.UARTMutex]
  else [SyncOp.take Mutex.UARTMutex false])

/-- The mutex held after a kernel call, given the mutex held before it (`none` for
no mutex); the outer `none` says that the call breaks the discipline: a take
while a mutex is held, a give of a mutex that is not the one held, or a queue
operation, event wait or delay while a mutex is held. -/
def heldAfter (held : Option Mutex) (op : SyncOp) : Option (Option Mutex) :=
  match held, op with
  | none, SyncOp.take m true => some (some m)
  | none, SyncOp.take _ false => some none
  | some _, SyncOp.take _ _ => none
  | some h, SyncOp.give m => if h = m then some none else none
  | none, SyncOp.give _ => none
  | none, SyncOp.send _ => some none
  | none, SyncOp.receive _ _ => some none
  | none, SyncOp.waitBits => some none
  | none, SyncOp.delay => some none
  | some _, SyncOp.send _ => none
  | some _, SyncOp.receive _ _ => none
  | some _, SyncOp.waitBits => none
  | some _, SyncOp.delay => none

/-- Whether a sequence of kernel calls, started with the mutex `held`, keeps the
discipline at every call and ends with no mutex held. -/
def keepsDiscipline (held : Option Mutex) : List SyncOp → Bool
  | [] => held.isNone
  | op :: rest =>
    match heldAfter held op with
    | none => false
    | some held' => keepsDiscipline held' rest

/-- A pass of a task body holds at most one mutex at a time: started with no mutex
held, every successful take is followed by the give of the same mutex before any
other take, queue operation, event wait or delay, and no mutex is held when the
pass ends. -/
def OneMutexAtATime (ops : List SyncOp) : Prop :=
  keepsDiscipline none ops = true

/-! ## Vocabulary of the statements -/

/-- The classification of a heat intensity `r` for a current temperature and a
difference `delta`, written as the spec words it: `Error` outside `[5, 40]`;
inside, `High` from 10 up, `Medium` on `[5, 10)`, `Low` on `[2, 5)` and `Off`
below 2. -/
def SpecThresholds (current delta : ℚ) (r : HeatIntensity) : Prop :=
  ((current < 5 ∨ 40 < current) → r = HeatIntensity.ERROR) ∧
  (5 ≤ current → current ≤ 40 →
    (10 ≤ delta → r = HeatIntensity.HIGHINTENSITY) ∧
    (5 ≤ delta → delta < 10 → r = HeatIntensity.MEDIUMINTENSITY) ∧
    (2 ≤ delta → delta < 5 → r = HeatIntensity.LOWINTENSITY) ∧
    (delta < 2 → r = HeatIntensity.INTENSITYOFF))

/-- A state in which the scheduler may start: zero-initialised globals, empty
queues, a cleared event group, no pending button edge, indicators off and
nothing transmitted.  (`heatIntensity` holds whichever enumerator has the value
0; it is overwritten before it is ever read.) -/
def bootSys : Sys where
  DriverState := 0
  PassengerState := 0
  DesiredTempDriver := 0
  DesiredTempPassenger := 0
  CurrentTempDriver := 0
  CurrentTempPassenger := 0
  heatIntensity := HeatIntensity.ERROR
  ullTasksExecutionTime := fun _ => 0
  eventTempSet := 0
  Reading_DisplayDriver := none
  Reading_DisplayPassenger := none
  Controller_HeatingDriver := none
  Controller_HeatingPassenger := none
  Controller_DisplayDriver := none
  Controller_DisplayPassenger := none
  GPIO_PORTF_RIS_REG := 0
  GPIO_PORTB_RIS_REG := 0
  RedLed1 := false
  BlueLed1 := false
  GreenLed1 := false
  RedLed2 := false
  BlueLed2 := false
  GreenLed2 := false
  uart := []

/-- The level table of the spec: `[Off, Low, Medium, High]`. -/
def specLevelTable (L : HeatLevels) : List Int :=
  [L.OFF, L.LOW, L.MEDIUM, L.HIGH]

/-- What can happen to the setpoint state: a button edge on pin PF0 (driver),
PF4 (passenger) or PB0 (driver), each latched in the port's raw interrupt status
and serviced by the port's handler, or a turn of the Setpoint Task. -/
inductive Event where
  | edgePF0
  | edgePF4
  | edgePB0
  | wake
  deriving DecidableEq, Repr

/-- The effect of one event.  An edge sets the pin's raw-interrupt bit and the
port handler runs; on `wake` the Setpoint Task runs one pass of its loop if it is
not blocked, and stays blocked (state unchanged) otherwise. -/
def step (L : HeatLevels) (s : Sys) : Event → Sys
  | Event.edgePF0 =>
    GPIOPortF_Handler { s with GPIO_PORTF_RIS_REG := s.GPIO_PORTF_RIS_REG ||| (1 <<< 0) }
  | Event.edgePF4 =>
    GPIOPortF_Handler { s with GPIO_PORTF_RIS_REG := s.GPIO_PORTF_RIS_REG ||| (1 <<< 4) }
  | Event.edgePB0 =>
    GPIOPortB_Handler { s with GPIO_PORTB_RIS_REG := s.GPIO_PORTB_RIS_REG ||| (1 <<< 0) }
  | Event.wake => (vTempSettingTask L s).getD s

/-- The state after a sequence of events, oldest first. -/
def run (L : HeatLevels) (s : Sys) (evs : List Event) : Sys :=
  evs.foldl (step L) s

/-- Number of driver button edges in a sequence of events. -/
def driverEdges (evs : List Event) : Nat :=
  evs.count Event.edgePF0 + evs.count Event.edgePB0

/-- Number of passenger button edges in a sequence of events. -/
def passengerEdges (evs : List Event) : Nat :=
  evs.count Event.edgePF4

/-- The initial setpoint state: both cycle counters 0 (their initialisers, lines
48-49), the event group as created (no bit set) and no button edge pending. -/
def Initial (s : Sys) : Prop :=
  s.DriverState = 0 ∧ s.PassengerState = 0 ∧ s.eventTempSet = 0 ∧
  s.GPIO_PORTF_RIS_REG &&& (1 <<< 0) = 0 ∧ s.GPIO_PORTF_RIS_REG &&& (1 <<< 4) = 0 ∧
  s.GPIO_PORTB_RIS_REG &&& (1 <<< 0) = 0

/-- The invariant of the setpoint state after `dn` driver edges and `pn` passenger
edges: each cycle counter is the edge count modulo 4, no edge is left pending,
and a seat whose event bit is clear either has had no edge yet or has its
desired level at the table entry of its counter. -/
structure SetpointInv (L : HeatLevels) (s : Sys) (dn pn : Nat) : Prop where
  driverState : s.DriverState = dn % 4
  passengerState : s.PassengerState = pn % 4
  portF0 : s.GPIO_PORTF_RIS_REG.testBit 0 = false
  portF4 : s.GPIO_PORTF_RIS_REG.testBit 4 = false
  portB0 : s.GPIO_PORTB_RIS_REG.testBit 0 = false
  driverLevel : s.eventTempSet.testBit 0 = false →
    dn = 0 ∨ (specLevelTable L)[dn % 4]? = some s.DesiredTempDriver
  passengerLevel : s.eventTempSet.testBit 1 = false →
    pn = 0 ∨ (specLevelTable L)[pn % 4]? = some s.DesiredTempPassenger

/-- Enumerator values used at concrete inputs: `OFF = 0`, `LOW = 25`,
`MEDIUM = 30`, `HIGH = 35`. -/
def sampleLevels : HeatLevels where
  OFF := 0
  LOW := 25
  MEDIUM := 30
  HIGH := 35

/-- The indicator lookup table of the spec, as (red, blue, green). -/
def specLedTable : HeatIntensity → Bool × Bool × Bool
  | HeatIntensity.ERROR => (true, false, false)
  | HeatIntensity.INTENSITYOFF => (false, false, false)
  | HeatIntensity.LOWINTENSITY => (false, false, true)
  | HeatIntensity.MEDIUMINTENSITY => (false, true, false)
  | HeatIntensity.HIGHINTENSITY => (false, true, true)

/-- The intensity texts of the status report, as the spec lists them. -/
def specIntensityText : HeatIntensity → String
  | HeatIntensity.ERROR => "NO Intensity due to error"
  | HeatIntensity.INTENSITYOFF => "NO Intensity"
  | HeatIntensity.LOWINTENSITY => "LOW Intensity"
  | HeatIntensity.MEDIUMINTENSITY => "MEDIUM Intensity"
  | HeatIntensity.HIGHINTENSITY => "HIGH Intensity"

/-- The status block of the spec for a seat label, a received temperature byte, a
desired level and an intensity, as the characters on the line. -/
def specStatusBlock (label : String) (temperature : Nat) (level : Int) (i : HeatIntensity) :
    List Char :=
  label.toList ++ "\nCurrent Temperature = ".toList ++ [Char.ofNat (temperature % 2 ^ 8)] ++
    "\nRequired Heat Level = ".toList ++ [Char.ofNat ((level % 2 ^ 8).toNat % 2 ^ 8)] ++
    "\nThe Heater is Working with ".toList ++ (specIntensityText i).toList

/-- Accumulators in which only the task with tag 1 has run, for `t` counts. -/
def onlyTaskOne (t : Nat) : Nat → Nat :=
  fun i => if i = 1 then t else 0

/-- A run of the system up to a Runtime Monitor cycle, split at the start of the
most recent window. -/
structure History where
  /-- The execution-time accumulators when the window starts. -/
  timeBefore : Nat → Nat
  /-- The hardware counter when the window starts. -/
  readingBefore : Nat
  /-- The execution time each task accumulates during the window. -/
  increment : Nat → Nat
  /-- The hardware-counter ticks that elapse during the window. -/
  elapsed : Nat

/-- Modelled from the spec: the scheduler hook, which is not among the sources,
adds the execution time of a task to the task's `uint32` accumulator; the
accumulators are monotonically increasing counters that nothing in `main.c`
resets. -/
def History.accumulators (h : History) : Nat → Nat :=
  fun i => (h.timeBefore i + h.increment i) % 2 ^ 32

/-- Modelled from the spec: the free-running hardware counter read by
`GPTM_WTimer0Read` (driver not among the sources) has advanced by the elapsed
ticks at the end of the window. -/
def History.reading (h : History) : Nat :=
  (h.readingBefore + h.elapsed) % 2 ^ 32

/-- The CPU load the Runtime Monitor computes in the cycle that ends the window. -/
def History.reportedLoad (h : History) : Option Nat :=
  ucCPU_Load h.accumulators h.reading

/-- A history whose window (task 1 runs 50 of 100 ticks) is the first after
start-up. -/
def freshHistory : History where
  timeBefore := fun _ => 0
  readingBefore := 0
  increment := onlyTaskOne 50
  elapsed := 100

/-- A history with the same window as `freshHistory`, preceded by 100 ticks in
which the task with tag 2 ran all the time. -/
def busyHistory : History where
  timeBefore := fun i => if i = 2 then 100 else 0
  readingBefore := 100
  increment := onlyTaskOne 50
  elapsed := 100

/-- A history with the same running totals and final counter reading as
`freshHistory`, split differently between the time before the window and the
window. -/
def splitHistory : History where
  timeBefore := onlyTaskOne 20
  readingBefore := 40
  increment := onlyTaskOne 30
  elapsed := 60

/-- A state that no run reaches: the boot state with the driver's cycle counter at
4, the driver's desired level at 25 and the driver's event bit set. -/
def strayCounterSys : Sys :=
  { bootSys with DriverState := 4, DesiredTempDriver := 25,
                 eventTempSet := mainSW1_INTERRUPT_BIT }

/-- An invocation of one of the three pieces of code that touch the setpoint
state: a button interrupt handler, entered with the port's raw interrupt status
at any value `ris` the hardware has left there, or a turn of the Setpoint
Task. -/
inductive Invocation where
  | portF (ris : Nat)
  | portB (ris : Nat)
  | setpoint
  deriving DecidableEq, Repr

/-- The effect of one invocation; a Setpoint Task that is blocked leaves the state
as it is. -/
def invoke (L : HeatLevels) (s : Sys) : Invocation → Sys
  | Invocation.portF ris => GPIOPortF_Handler { s with GPIO_PORTF_RIS_REG := ris }
  | Invocation.portB ris => GPIOPortB_Handler { s with GPIO_PORTB_RIS_REG := ris }
  | Invocation.setpoint => (vTempSettingTask L s).getD s

/-- The state after a sequence of invocations, oldest first. -/
def invokeAll (L : HeatLevels) (s : Sys) (invs : List Invocation) : Sys :=
  invs.foldl (invoke L) s

/-- A state with the driver's counter at 1 and level at 25, the passenger's counter
at 2 and level at 0, only the driver's edge pending on port F and only the
passenger's event bit set. -/
def oneSeatSys : Sys :=
  { bootSys with DriverState := 1, DesiredTempDriver := 25, PassengerState := 2,
                 DesiredTempPassenger := 0, GPIO_PORTF_RIS_REG := 1 <<< 0,
                 eventTempSet := mainSW2_INTERRUPT_BIT }

/-! ## Theorems -/

/-! ### Bit-level facts about the registers and the event group -/

theorem and_one_shiftLeft_ne_zero_iff (x i : Nat) :
    x &&& (1 <<< i) ≠ 0 ↔ x.testBit i = true := by
  rw [Nat.one_shiftLeft]
  constructor
  · intro h
    by_contra hb
    apply h
    apply Nat.eq_of_testBit_eq
    intro j
    simp only [Nat.testBit_and, Nat.testBit_two_pow, Nat.zero_testBit, Bool.and_eq_false_imp,
      decide_eq_false_iff_not]
    intro hj hij
    subst hij
    exact hb hj
  · intro h h0
    have := congrArg (fun y => Nat.testBit y i) h0
    simp [Nat.testBit_two_pow, h] at this

theorem and_one_shiftLeft_eq_zero_iff (x i : Nat) :
    x &&& (1 <<< i) = 0 ↔ x.testBit i = false := by
  have h := and_one_shiftLeft_ne_zero_iff x i
  constructor
  · intro h0
    by_contra hb
    exact (h.mpr (by simpa using hb)) h0
  · intro hb
    by_contra h0
    rw [h.mp h0] at hb
    exact Bool.noConfusion hb

theorem testBit_one_shiftLeft (i j : Nat) : (1 <<< i).testBit j = decide (i = j) := by
  rw [Nat.one_shiftLeft, Nat.testBit_two_pow]

theorem testBit_GPIO_ICR_write (ris v i : Nat) :
    (GPIO_ICR_write ris v).testBit i = (ris.testBit i && !v.testBit i) := by
  unfold GPIO_ICR_write
  rw [Nat.testBit_xor, Nat.testBit_and]
  cases ris.testBit i <;> cases v.testBit i <;> rfl

theorem uint8_succ_mod_four (n : Nat) : (n + 1) % 2 ^ 8 % 4 = (n + 1) % 4 := by
  omega

/-! ### The interrupt handlers, branch by branch -/

theorem GPIOPortF_Handler_driver (s : Sys) (h : s.GPIO_PORTF_RIS_REG.testBit 0 = true) :
    GPIOPortF_Handler s =
      { s with
        eventTempSet := s.eventTempSet ||| mainSW1_INTERRUPT_BIT
        DriverState := (s.DriverState + 1) % 4
        GPIO_PORTF_RIS_REG := GPIO_ICR_write s.GPIO_PORTF_RIS_REG (1 <<< 0) } := by
  have hc : s.GPIO_PORTF_RIS_REG &&& (1 <<< 0) ≠ 0 := (and_one_shiftLeft_ne_zero_iff _ _).mpr h
  unfold GPIOPortF_Handler
  rw [if_pos hc]
  simp only [xEventGroupSetBitsFromISR, GPIO_ICR_read, Nat.zero_or, uint8_succ_mod_four]

theorem GPIOPortF_Handler_passenger (s : Sys) (h0 : s.GPIO_PORTF_RIS_REG.testBit 0 = false)
    (h4 : s.GPIO_PORTF_RIS_REG.testBit 4 = true) :
    GPIOPortF_Handler s =
      { s with
        eventTempSet := s.eventTempSet ||| mainSW2_INTERRUPT_BIT
        PassengerState := (s.PassengerState + 1) % 4
        GPIO_PORTF_RIS_REG := GPIO_ICR_write s.GPIO_PORTF_RIS_REG (1 <<< 4) } := by
  have hc0 : ¬ s.GPIO_PORTF_RIS_REG &&& (1 <<< 0) ≠ 0 :=
    not_not.mpr ((and_one_shiftLeft_eq_zero_iff _ _).mpr h0)
  have hc4 : s.GPIO_PORTF_RIS_REG &&& (1 <<< 4) ≠ 0 := (and_one_shiftLeft_ne_zero_iff _ _).mpr h4
  unfold GPIOPortF_Handler
  rw [if_neg hc0, if_pos hc4]
  simp only [xEventGroupSetBitsFromISR, GPIO_ICR_read, Nat.zero_or, uint8_succ_mod_four]

theorem GPIOPortF_Handler_idle (s : Sys) (h0 : s.GPIO_PORTF_RIS_REG.testBit 0 = false)
    (h4 : s.GPIO_PORTF_RIS_REG.testBit 4 = false) :
    GPIOPortF_Handler s = s := by
  have hc0 : ¬ s.GPIO_PORTF_RIS_REG &&& (1 <<< 0) ≠ 0 :=
    not_not.mpr ((and_one_shiftLeft_eq_zero_iff _ _).mpr h0)
  have hc4 : ¬ s.GPIO_PORTF_RIS_REG &&& (1 <<< 4) ≠ 0 :=
    not_not.mpr ((and_one_shiftLeft_eq_zero_iff _ _).mpr h4)
  unfold GPIOPortF_Handler
  rw [if_neg hc0, if_neg hc4]

theorem GPIOPortB_Handler_driver (s : Sys) (h : s.GPIO_PORTB_RIS_REG.testBit 0 = true) :
    GPIOPortB_Handler s =
      { s with
        eventTempSet := s.eventTempSet ||| mainSW1_INTERRUPT_BIT
        DriverState := (s.DriverState + 1) % 4
        GPIO_PORTB_RIS_REG := GPIO_ICR_write s.GPIO_PORTB_RIS_REG (1 <<< 0) } := by
  have hc : s.GPIO_PORTB_RIS_REG &&& (1 <<< 0) ≠ 0 := (and_one_shiftLeft_ne_zero_iff _ _).mpr h
  unfold GPIOPortB_Handler
  rw [if_pos hc]
  simp only [xEventGroupSetBitsFromISR, GPIO_ICR_read, Nat.zero_or, uint8_succ_mod_four]

theorem GPIOPortB_Handler_idle (s : Sys) (h : s.GPIO_PORTB_RIS_REG.testBit 0 = false) :
    GPIOPortB_Handler s = s := by
  have hc : ¬ s.GPIO_PORTB_RIS_REG &&& (1 <<< 0) ≠ 0 :=
    not_not.mpr ((and_one_shiftLeft_eq_zero_iff _ _).mpr h)
  unfold GPIOPortB_Handler
  rw [if_neg hc]

/-! ### The Setpoint Task -/

theorem vTempSettingTask_blocked (L : HeatLevels) (s : Sys)
    (h0 : s.eventTempSet.testBit 0 = false) (h1 : s.eventTempSet.testBit 1 = false) :
    vTempSettingTask L s = none := by
  have hz : s.eventTempSet &&& (mainSW1_INTERRUPT_BIT ||| mainSW2_INTERRUPT_BIT) = 0 := by
    apply Nat.eq_of_testBit_eq
    intro j
    simp only [mainSW1_INTERRUPT_BIT, mainSW2_INTERRUPT_BIT, Nat.testBit_and, Nat.testBit_or,
      testBit_one_shiftLeft, Nat.zero_testBit]
    by_cases hj0 : 0 = j
    · subst hj0; simp [h0]
    · by_cases hj1 : 1 = j
      · subst hj1; simp [h1]
      · simp [hj0, hj1]
  simp [vTempSettingTask, xEventGroupWaitBits, hz]

theorem vTempSettingTask_woken (L : HeatLevels) (s : Sys)
    (h : s.eventTempSet.testBit 0 = true ∨ s.eventTempSet.testBit 1 = true) :
    vTempSettingTask L s = some
      { s with
        eventTempSet := s.eventTempSet ^^^
          (s.eventTempSet &&& (mainSW1_INTERRUPT_BIT ||| mainSW2_INTERRUPT_BIT))
        DesiredTempDriver :=
          if s.eventTempSet.testBit 0 = true then
            heatLevelSwitch L s.DriverState s.DesiredTempDriver
          else s.DesiredTempDriver
        DesiredTempPassenger :=
          if s.eventTempSet.testBit 1 = true then
            heatLevelSwitch L s.PassengerState s.DesiredTempPassenger
          else s.DesiredTempPassenger } := by
  have hnz : s.eventTempSet &&& (mainSW1_INTERRUPT_BIT ||| mainSW2_INTERRUPT_BIT) ≠ 0 := by
    intro hz
    have key : ∀ j, (s.eventTempSet.testBit j && (decide (0 = j) || decide (1 = j))) = false := by
      intro j
      have := congrArg (fun y => Nat.testBit y j) hz
      simpa only [mainSW1_INTERRUPT_BIT, mainSW2_INTERRUPT_BIT, Nat.testBit_and, Nat.testBit_or,
        testBit_one_shiftLeft, Nat.zero_testBit] using this
    rcases h with h | h
    · have := key 0
      rw [h] at this
      exact Bool.noConfusion this
    · have := key 1
      rw [h] at this
      exact Bool.noConfusion this
  have c0 : s.eventTempSet &&& mainSW1_INTERRUPT_BIT ≠ 0 ↔ s.eventTempSet.testBit 0 = true :=
    and_one_shiftLeft_ne_zero_iff s.eventTempSet 0
  have c1 : s.eventTempSet &&& mainSW2_INTERRUPT_BIT ≠ 0 ↔ s.eventTempSet.testBit 1 = true :=
    and_one_shiftLeft_ne_zero_iff s.eventTempSet 1
  unfold vTempSettingTask xEventGroupWaitBits
  simp only [Bool.false_eq_true, if_false, hnz, c0, c1, ne_eq, not_false_eq_true, decide_True,
    if_true]
  by_cases b0 : s.eventTempSet.testBit 0 = true <;>
  by_cases b1 : s.eventTempSet.testBit 1 = true <;>
  simp only [b0, b1, if_true, if_false, Bool.false_eq_true]

theorem heatLevelSwitch_table (L : HeatLevels) (n : Nat) (old : Int) :
    (specLevelTable L)[n % 4]? = some (heatLevelSwitch L (n % 4) old) := by
  have h : n % 4 < 4 := Nat.mod_lt _ (by decide)
  generalize n % 4 = k at h
  interval_cases k <;> rfl

theorem heatLevelSwitch_outside (L : HeatLevels) (n : Nat) (old : Int) (h : 4 ≤ n) :
    heatLevelSwitch L n old = old := by
  match n, h with
  | n + 4, _ => rfl

theorem SetpointInv_of_Initial (L : HeatLevels) (s : Sys) (h : Initial s) :
    SetpointInv L s 0 0 := by
  obtain ⟨hd, hp, he, hf0, hf4, hb0⟩ := h
  refine ⟨hd, hp, (and_one_shiftLeft_eq_zero_iff _ _).mp hf0,
    (and_one_shiftLeft_eq_zero_iff _ _).mp hf4, (and_one_shiftLeft_eq_zero_iff _ _).mp hb0,
    fun _ => Or.inl rfl, fun _ => Or.inl rfl⟩

theorem SetpointInv_edgePF0 (L : HeatLevels) (s : Sys) (dn pn : Nat)
    (h : SetpointInv L s dn pn) : SetpointInv L (step L s Event.edgePF0) (dn + 1) pn := by
  have hp : ({ s with GPIO_PORTF_RIS_REG := s.GPIO_PORTF_RIS_REG ||| (1 <<< 0) } :
      Sys).GPIO_PORTF_RIS_REG.testBit 0 = true := by
    show (s.GPIO_PORTF_RIS_REG ||| (1 <<< 0)).testBit 0 = true
    rw [Nat.testBit_or, testBit_one_shiftLeft]; simp
  unfold step
  rw [GPIOPortF_Handler_driver _ hp]
  refine ⟨?_, h.passengerState, ?_, ?_, h.portB0, ?_, ?_⟩
  · show (s.DriverState + 1) % 4 = (dn + 1) % 4
    rw [h.driverState]; omega
  · show (GPIO_ICR_write (s.GPIO_PORTF_RIS_REG ||| (1 <<< 0)) (1 <<< 0)).testBit 0 = false
    rw [testBit_GPIO_ICR_write, testBit_one_shiftLeft]; simp
  · show (GPIO_ICR_write (s.GPIO_PORTF_RIS_REG ||| (1 <<< 0)) (1 <<< 0)).testBit 4 = false
    rw [testBit_GPIO_ICR_write, Nat.testBit_or, testBit_one_shiftLeft, h.portF4]; simp
  · intro hb
    exfalso
    have : (s.eventTempSet ||| mainSW1_INTERRUPT_BIT).testBit 0 = false := hb
    rw [mainSW1_INTERRUPT_BIT, Nat.testBit_or, testBit_one_shiftLeft] at this
    simp at this
  · intro hb
    have hb1 : (s.eventTempSet ||| mainSW1_INTERRUPT_BIT).testBit 1 = false := hb
    rw [mainSW1_INTERRUPT_BIT, Nat.testBit_or, testBit_one_shiftLeft] at hb1
    exact h.passengerLevel (by simpa using hb1)

theorem SetpointInv_edgePB0 (L : HeatLevels) (s : Sys) (dn pn : Nat)
    (h : SetpointInv L s dn pn) : SetpointInv L (step L s Event.edgePB0) (dn + 1) pn := by
  have hp : ({ s with GPIO_PORTB_RIS_REG := s.GPIO_PORTB_RIS_REG ||| (1 <<< 0) } :
      Sys).GPIO_PORTB_RIS_REG.testBit 0 = true := by
    show (s.GPIO_PORTB_RIS_REG ||| (1 <<< 0)).testBit 0 = true
    rw [Nat.testBit_or, testBit_one_shiftLeft]; simp
  unfold step
  rw [GPIOPortB_Handler_driver _ hp]
  refine ⟨?_, h.passengerState, h.portF0, h.portF4, ?_, ?_, ?_⟩
  · show (s.DriverState + 1) % 4 = (dn + 1) % 4
    rw [h.driverState]; omega
  · show (GPIO_ICR_write (s.GPIO_PORTB_RIS_REG ||| (1 <<< 0)) (1 <<< 0)).testBit 0 = false
    rw [testBit_GPIO_ICR_write, testBit_one_shiftLeft]; simp
  · intro hb
    exfalso
    have : (s.eventTempSet ||| mainSW1_INTERRUPT_BIT).testBit 0 = false := hb
    rw [mainSW1_INTERRUPT_BIT, Nat.testBit_or, testBit_one_shiftLeft] at this
    simp at this
  · intro hb
    have hb1 : (s.eventTempSet ||| mainSW1_INTERRUPT_BIT).testBit 1 = false := hb
    rw [mainSW1_INTERRUPT_BIT, Nat.testBit_or, testBit_one_shiftLeft] at hb1
    exact h.passengerLevel (by simpa using hb1)

theorem SetpointInv_edgePF4 (L : HeatLevels) (s : Sys) (dn pn : Nat)
    (h : SetpointInv L s dn pn) : SetpointInv L (step L s Event.edgePF4) dn (pn + 1) := by
  have hp0 : ({ s with GPIO_PORTF_RIS_REG := s.GPIO_PORTF_RIS_REG ||| (1 <<< 4) } :
      Sys).GPIO_PORTF_RIS_REG.testBit 0 = false := by
    show (s.GPIO_PORTF_RIS_REG ||| (1 <<< 4)).testBit 0 = false
    rw [Nat.testBit_or, testBit_one_shiftLeft, h.portF0]; simp
  have hp4 : ({ s with GPIO_PORTF_RIS_REG := s.GPIO_PORTF_RIS_REG ||| (1 <<< 4) } :
      Sys).GPIO_PORTF_RIS_REG.testBit 4 = true := by
    show (s.GPIO_PORTF_RIS_REG ||| (1 <<< 4)).testBit 4 = true
    rw [Nat.testBit_or, testBit_one_shiftLeft]; simp
  unfold step
  rw [GPIOPortF_Handler_passenger _ hp0 hp4]
  refine ⟨h.driverState, ?_, ?_, ?_, h.portB0, ?_, ?_⟩
  · show (s.PassengerState + 1) % 4 = (pn + 1) % 4
    rw [h.passengerState]; omega
  · show (GPIO_ICR_write (s.GPIO_PORTF_RIS_REG ||| (1 <<< 4)) (1 <<< 4)).testBit 0 = false
    rw [testBit_GPIO_ICR_write, Nat.testBit_or, testBit_one_shiftLeft, h.portF0]; simp
  · show (GPIO_ICR_write (s.GPIO_PORTF_RIS_REG ||| (1 <<< 4)) (1 <<< 4)).testBit 4 = false
    rw [testBit_GPIO_ICR_write, testBit_one_shiftLeft]; simp
  · intro hb
    have hb0 : (s.eventTempSet ||| mainSW2_INTERRUPT_BIT).testBit 0 = false := hb
    rw [mainSW2_INTERRUPT_BIT, Nat.testBit_or, testBit_one_shiftLeft] at hb0
    exact h.driverLevel (by simpa using hb0)
  · intro hb
    exfalso
    have : (s.eventTempSet ||| mainSW2_INTERRUPT_BIT).testBit 1 = false := hb
    rw [mainSW2_INTERRUPT_BIT, Nat.testBit_or, testBit_one_shiftLeft] at this
    simp at this

theorem SetpointInv_wake (L : HeatLevels) (s : Sys) (dn pn : Nat)
    (h : SetpointInv L s dn pn) : SetpointInv L (step L s Event.wake) dn pn := by
  unfold step
  by_cases hw : s.eventTempSet.testBit 0 = true ∨ s.eventTempSet.testBit 1 = true
  · rw [vTempSettingTask_woken L s hw]
    refine ⟨h.driverState, h.passengerState, h.portF0, h.portF4, h.portB0, ?_, ?_⟩
    · intro _
      show dn = 0 ∨ (specLevelTable L)[dn % 4]? = some
        (if s.eventTempSet.testBit 0 = true then
          heatLevelSwitch L s.DriverState s.DesiredTempDriver else s.DesiredTempDriver)
      by_cases b0 : s.eventTempSet.testBit 0 = true
      · rw [if_pos b0, h.driverState]
        exact Or.inr (heatLevelSwitch_table L dn _)
      · rw [if_neg b0]
        exact h.driverLevel (by simpa using b0)
    · intro _
      show pn = 0 ∨ (specLevelTable L)[pn % 4]? = some
        (if s.eventTempSet.testBit 1 = true then
          heatLevelSwitch L s.PassengerState s.DesiredTempPassenger
        else s.DesiredTempPassenger)
      by_cases b1 : s.eventTempSet.testBit 1 = true
      · rw [if_pos b1, h.passengerState]
        exact Or.inr (heatLevelSwitch_table L pn _)
      · rw [if_neg b1]
        exact h.passengerLevel (by simpa using b1)
  · have b0 : s.eventTempSet.testBit 0 = false := by
      by_contra hb; exact hw (Or.inl (by simpa using hb))
    have b1 : s.eventTempSet.testBit 1 = false := by
      by_contra hb; exact hw (Or.inr (by simpa using hb))
    rw [vTempSettingTask_blocked L s b0 b1]
    exact h

theorem step_wake_clears (L : HeatLevels) (s : Sys) :
    (step L s Event.wake).eventTempSet.testBit 0 = false ∧
    (step L s Event.wake).eventTempSet.testBit 1 = false := by
  unfold step
  by_cases hw : s.eventTempSet.testBit 0 = true ∨ s.eventTempSet.testBit 1 = true
  · rw [vTempSettingTask_woken L s hw]
    constructor
    · show (s.eventTempSet ^^^ (s.eventTempSet &&&
        (mainSW1_INTERRUPT_BIT ||| mainSW2_INTERRUPT_BIT))).testBit 0 = false
      rw [Nat.testBit_xor, Nat.testBit_and, Nat.testBit_or, mainSW1_INTERRUPT_BIT,
        mainSW2_INTERRUPT_BIT, testBit_one_shiftLeft, testBit_one_shiftLeft]
      cases s.eventTempSet.testBit 0 <;> rfl
    · show (s.eventTempSet ^^^ (s.eventTempSet &&&
        (mainSW1_INTERRUPT_BIT ||| mainSW2_INTERRUPT_BIT))).testBit 1 = false
      rw [Nat.testBit_xor, Nat.testBit_and, Nat.testBit_or, mainSW1_INTERRUPT_BIT,
        mainSW2_INTERRUPT_BIT, testBit_one_shiftLeft, testBit_one_shiftLeft]
      cases s.eventTempSet.testBit 1 <;> rfl
  · have b0 : s.eventTempSet.testBit 0 = false := by
      by_contra hb; exact hw (Or.inl (by simpa using hb))
    have b1 : s.eventTempSet.testBit 1 = false := by
      by_contra hb; exact hw (Or.inr (by simpa using hb))
    rw [vTempSettingTask_blocked L s b0 b1]
    exact ⟨b0, b1⟩

theorem driverEdges_append_wake (evs : List Event) :
    driverEdges (evs ++ [Event.wake]) = driverEdges evs := by
  simp [driverEdges, List.count_append]

theorem passengerEdges_append_wake (evs : List Event) :
    passengerEdges (evs ++ [Event.wake]) = passengerEdges evs := by
  simp [passengerEdges, List.count_append]

theorem SetpointInv_run (L : HeatLevels) (s0 : Sys) (h0 : Initial s0) (evs : List Event) :
    SetpointInv L (run L s0 evs) (driverEdges evs) (passengerEdges evs) := by
  induction evs using List.reverseRecOn with
  | nil => exact SetpointInv_of_Initial L s0 h0
  | append_singleton l e ih =>
    have hrun : run L s0 (l ++ [e]) = step L (run L s0 l) e := by
      simp [run, List.foldl_append]
    rw [hrun]
    cases e
    · have hd : driverEdges (l ++ [Event.edgePF0]) = driverEdges l + 1 := by
        simp [driverEdges, List.count_append]; omega
      have hp : passengerEdges (l ++ [Event.edgePF0]) = passengerEdges l := by
        simp [passengerEdges, List.count_append]
      rw [hd, hp]
      exact SetpointInv_edgePF0 L _ _ _ ih
    · have hd : driverEdges (l ++ [Event.edgePF4]) = driverEdges l := by
        simp [driverEdges, List.count_append]
      have hp : passengerEdges (l ++ [Event.edgePF4]) = passengerEdges l + 1 := by
        simp [passengerEdges, List.count_append]
      rw [hd, hp]
      exact SetpointInv_edgePF4 L _ _ _ ih
    · have hd : driverEdges (l ++ [Event.edgePB0]) = driverEdges l + 1 := by
        simp [driverEdges, List.count_append]; omega
      have hp : passengerEdges (l ++ [Event.edgePB0]) = passengerEdges l := by
        simp [passengerEdges, List.count_append]
      rw [hd, hp]
      exact SetpointInv_edgePB0 L _ _ _ ih
    · have hd : driverEdges (l ++ [Event.wake]) = driverEdges l := by
        simp [driverEdges, List.count_append]
      have hp : passengerEdges (l ++ [Event.wake]) = passengerEdges l := by
        simp [passengerEdges, List.count_append]
      rw [hd, hp]
      exact SetpointInv_wake L _ _ _ ih

/-! ### The cycle counters stay in the table's domain -/

theorem GPIOPortF_Handler_counters (s : Sys) (hd : s.DriverState < 4)
    (hp : s.PassengerState < 4) :
    (GPIOPortF_Handler s).DriverState < 4 ∧ (GPIOPortF_Handler s).PassengerState < 4 := by
  by_cases h0 : s.GPIO_PORTF_RIS_REG.testBit 0 = true
  · rw [GPIOPortF_Handler_driver s h0]
    exact ⟨Nat.mod_lt _ (by decide), hp⟩
  · have h0' : s.GPIO_PORTF_RIS_REG.testBit 0 = false := by simpa using h0
    by_cases h4 : s.GPIO_PORTF_RIS_REG.testBit 4 = true
    · rw [GPIOPortF_Handler_passenger s h0' h4]
      exact ⟨hd, Nat.mod_lt _ (by decide)⟩
    · rw [GPIOPortF_Handler_idle s h0' (by simpa using h4)]
      exact ⟨hd, hp⟩

theorem GPIOPortB_Handler_counters (s : Sys) (hd : s.DriverState < 4)
    (hp : s.PassengerState < 4) :
    (GPIOPortB_Handler s).DriverState < 4 ∧ (GPIOPortB_Handler s).PassengerState < 4 := by
  by_cases h0 : s.GPIO_PORTB_RIS_REG.testBit 0 = true
  · rw [GPIOPortB_Handler_driver s h0]
    exact ⟨Nat.mod_lt _ (by decide), hp⟩
  · rw [GPIOPortB_Handler_idle s (by simpa using h0)]
    exact ⟨hd, hp⟩

theorem vTempSettingTask_counters (L : HeatLevels) (s : Sys) :
    ((vTempSettingTask L s).getD s).DriverState = s.DriverState ∧
    ((vTempSettingTask L s).getD s).PassengerState = s.PassengerState := by
  by_cases hw : s.eventTempSet.testBit 0 = true ∨ s.eventTempSet.testBit 1 = true
  · rw [vTempSettingTask_woken L s hw]
    exact ⟨rfl, rfl⟩
  · have b0 : s.eventTempSet.testBit 0 = false := by
      by_contra hb; exact hw (Or.inl (by simpa using hb))
    have b1 : s.eventTempSet.testBit 1 = false := by
      by_contra hb; exact hw (Or.inr (by simpa using hb))
    rw [vTempSettingTask_blocked L s b0 b1]
    exact ⟨rfl, rfl⟩

theorem invoke_counters (L : HeatLevels) (s : Sys) (i : Invocation) (hd : s.DriverState < 4)
    (hp : s.PassengerState < 4) :
    (invoke L s i).DriverState < 4 ∧ (invoke L s i).PassengerState < 4 := by
  cases i with
  | portF ris => exact GPIOPortF_Handler_counters _ hd hp
  | portB ris => exact GPIOPortB_Handler_counters _ hd hp
  | setpoint =>
    obtain ⟨e1, e2⟩ := vTempSettingTask_counters L s
    unfold invoke
    rw [e1, e2]
    exact ⟨hd, hp⟩

theorem invokeAll_counters (L : HeatLevels) (s : Sys) (invs : List Invocation)
    (hd : s.DriverState < 4) (hp : s.PassengerState < 4) :
    (invokeAll L s invs).DriverState < 4 ∧ (invokeAll L s invs).PassengerState < 4 := by
  induction invs generalizing s with
  | nil => exact ⟨hd, hp⟩
  | cons i rest ih =>
    obtain ⟨hd', hp'⟩ := invoke_counters L s i hd hp
    exact ih (invoke L s i) hd' hp'

theorem heatLevelSwitch_table_of_lt (L : HeatLevels) (k : Nat) (old : Int) (h : k < 4) :
    (specLevelTable L)[k]? = some (heatLevelSwitch L k old) := by
  interval_cases k <;> rfl

/-! ### The task passes as explicit state updates -/

theorem vHeaterControllerTask_driver (fsub : Int → ℚ → ℚ) (s : Sys)
    (h1 : s.Controller_HeatingDriver = none) (h2 : s.Controller_DisplayDriver = none) :
    vHeaterControllerTask fsub ISDRIVER s = some
      { s with
        heatIntensity := computeHeatIntensity fsub s.CurrentTempDriver s.DesiredTempDriver
        Controller_HeatingDriver :=
          some (computeHeatIntensity fsub s.CurrentTempDriver s.DesiredTempDriver)
        Controller_DisplayDriver :=
          some (computeHeatIntensity fsub s.CurrentTempDriver s.DesiredTempDriver) } := by
  simp only [vHeaterControllerTask, xQueueSend, h1, h2, ISDRIVER, if_true]

theorem vHeaterControllerTask_passenger (fsub : Int → ℚ → ℚ) (s : Sys)
    (h1 : s.Controller_HeatingPassenger = none) (h2 : s.Controller_DisplayPassenger = none) :
    vHeaterControllerTask fsub ISPASSENGER s = some
      { s with
        heatIntensity := computeHeatIntensity fsub s.CurrentTempPassenger s.DesiredTempPassenger
        Controller_HeatingPassenger :=
          some (computeHeatIntensity fsub s.CurrentTempPassenger s.DesiredTempPassenger)
        Controller_DisplayPassenger :=
          some (computeHeatIntensity fsub s.CurrentTempPassenger s.DesiredTempPassenger) } := by
  simp only [vHeaterControllerTask, xQueueSend, h1, h2, ISDRIVER, ISPASSENGER, one_ne_zero,
    if_false, if_true]

theorem vHeaterLedsControllerTask_driver (v : HeatIntensity) (s : Sys)
    (h : s.Controller_HeatingDriver = some v) :
    vHeaterLedsControllerTask ISDRIVER s = some
      { s with
        Controller_HeatingDriver := none
        RedLed1 := (specLedTable v).1
        BlueLed1 := (specLedTable v).2.1
        GreenLed1 := (specLedTable v).2.2 } := by
  cases v <;>
    simp only [vHeaterLedsControllerTask, xQueueReceive, h, ISDRIVER, if_true, specLedTable,
      GPIO_RedLed1On, GPIO_RedLed1Off, GPIO_BlueLed1On, GPIO_BlueLed1Off, GPIO_GreenLed1On,
      GPIO_GreenLed1Off]

theorem vHeaterLedsControllerTask_passenger (v : HeatIntensity) (s : Sys)
    (h : s.Controller_HeatingPassenger = some v) :
    vHeaterLedsControllerTask ISPASSENGER s = some
      { s with
        Controller_HeatingPassenger := none
        RedLed2 := (specLedTable v).1
        BlueLed2 := (specLedTable v).2.1
        GreenLed2 := (specLedTable v).2.2 } := by
  cases v <;>
    simp only [vHeaterLedsControllerTask, xQueueReceive, h, ISDRIVER, ISPASSENGER, one_ne_zero,
      if_false, if_true, specLedTable, GPIO_RedLed2On, GPIO_RedLed2Off, GPIO_BlueLed2On,
      GPIO_BlueLed2Off, GPIO_GreenLed2On, GPIO_GreenLed2Off]

theorem vTempReadingTask_driver (firstByte : ℚ → Nat) (adc_value : ℚ) (s : Sys)
    (h : s.Reading_DisplayDriver = none) :
    vTempReadingTask firstByte ISDRIVER adc_value s = some
      { s with
        CurrentTempDriver := adc_value
        Reading_DisplayDriver := some (firstByte adc_value % 2 ^ 8) } := by
  simp only [vTempReadingTask, xQueueSend, h, ISDRIVER, if_true]

theorem vTempReadingTask_passenger (firstByte : ℚ → Nat) (adc_value : ℚ) (s : Sys)
    (h : s.Reading_DisplayPassenger = none) :
    vTempReadingTask firstByte ISPASSENGER adc_value s = some
      { s with
        CurrentTempPassenger := adc_value
        Reading_DisplayPassenger := some (firstByte adc_value % 2 ^ 8) } := by
  simp only [vTempReadingTask, xQueueSend, h, ISDRIVER, ISPASSENGER, one_ne_zero, if_false,
    if_true]

theorem byte_ne_of_not_byte (b : Nat) (x : ℚ) (hb : b < 2 ^ 8)
    (hx : ¬ ∃ n : Nat, n < 2 ^ 8 ∧ x = (n : ℚ)) : (b : ℚ) ≠ x :=
  fun h => hx ⟨b, hb, h.symm⟩

theorem sendHeatState_eq (v : HeatIntensity) (s : Sys) :
    sendHeatState v s = { s with uart := s.uart ++ (specIntensityText v).toList } := by
  cases v <;> rfl

theorem vDisplayTask_driver (temperature : Nat) (v : HeatIntensity) (s : Sys)
    (h1 : s.Reading_DisplayDriver = some temperature)
    (h2 : s.Controller_DisplayDriver = some v) :
    vDisplayTask ISDRIVER s = some
      { s with
        Reading_DisplayDriver := none
        Controller_DisplayDriver := none
        uart := s.uart ++ specStatusBlock "Driver:" temperature s.DesiredTempDriver v } := by
  simp only [vDisplayTask, xQueueReceive, h1, h2, ISDRIVER, if_true, sendHeatState_eq,
    UART0_SendString, UART0_SendByte, specStatusBlock, List.append_assoc]

theorem vDisplayTask_passenger (temperature : Nat) (v : HeatIntensity) (s : Sys)
    (h1 : s.Reading_DisplayPassenger = some temperature)
    (h2 : s.Controller_DisplayPassenger = some v) :
    vDisplayTask ISPASSENGER s = some
      { s with
        Reading_DisplayPassenger := none
        Controller_DisplayPassenger := none
        uart := s.uart ++ specStatusBlock "Passenger:" temperature s.DesiredTempPassenger v } := by
  simp only [vDisplayTask, xQueueReceive, h1, h2, ISDRIVER, ISPASSENGER, one_ne_zero, if_false,
    if_true, sendHeatState_eq, UART0_SendString, UART0_SendByte, specStatusBlock,
    List.append_assoc]

theorem ullTotalTasksTime_eq_sum (acc : Nat → Nat) :
    ullTotalTasksTime acc =
      (acc 1 + acc 2 + acc 3 + acc 4 + acc 5 + acc 6 + acc 7 + acc 8 + acc 9 + acc 10 +
        acc 11) % 2 ^ 32 := by
  have h : ullTotalTasksTime acc =
      (((((((((((0 + acc 1) % 2 ^ 32 + acc 2) % 2 ^ 32 + acc 3) % 2 ^ 32 + acc 4) % 2 ^ 32 +
        acc 5) % 2 ^ 32 + acc 6) % 2 ^ 32 + acc 7) % 2 ^ 32 + acc 8) % 2 ^ 32 +
        acc 9) % 2 ^ 32 + acc 10) % 2 ^ 32 + acc 11) % 2 ^ 32 := rfl
  rw [h]
  omega

theorem ullTotalTasksTime_congr (acc acc' : Nat → Nat)
    (h : ∀ i, 1 ≤ i → i ≤ 11 → acc i = acc' i) :
    ullTotalTasksTime acc = ullTotalTasksTime acc' := by
  rw [ullTotalTasksTime_eq_sum, ullTotalTasksTime_eq_sum]
  rw [h 1 (by decide) (by decide), h 2 (by decide) (by decide), h 3 (by decide) (by decide),
    h 4 (by decide) (by decide), h 5 (by decide) (by decide), h 6 (by decide) (by decide),
    h 7 (by decide) (by decide), h 8 (by decide) (by decide), h 9 (by decide) (by decide),
    h 10 (by decide) (by decide), h 11 (by decide) (by decide)]

theorem ullTotalTasksTime_onlyTaskOne (t : Nat) :
    ullTotalTasksTime (onlyTaskOne t) = t % 2 ^ 32 := by
  rw [ullTotalTasksTime_eq_sum]
  simp [onlyTaskOne]

theorem ullTotalTasksTime_zero (acc : Nat → Nat) (h : ∀ i, 1 ≤ i → i ≤ 11 → acc i = 0) :
    ullTotalTasksTime acc = 0 := by
  rw [ullTotalTasksTime_congr acc (fun _ => 0) h, ullTotalTasksTime_eq_sum]
  rfl

theorem ucCPU_Load_of_ne_zero (acc : Nat → Nat) (reading : Nat) (h : reading ≠ 0) :
    ucCPU_Load acc reading =
      some ((ullTotalTasksTime acc * 100) % 2 ^ 32 / reading % 2 ^ 8) := by
  unfold ucCPU_Load
  rw [if_neg h]

/-! ### Pending flags under an interrupt-clear write -/

theorem GPIO_ICR_write_and_self (ris i : Nat) :
    GPIO_ICR_write ris (1 <<< i) &&& (1 <<< i) = 0 := by
  rw [and_one_shiftLeft_eq_zero_iff, testBit_GPIO_ICR_write, testBit_one_shiftLeft]
  simp

theorem GPIO_ICR_write_and_other (ris i j : Nat) (h : i ≠ j) :
    GPIO_ICR_write ris (1 <<< i) &&& (1 <<< j) = ris &&& (1 <<< j) := by
  apply Nat.eq_of_testBit_eq
  intro k
  rw [Nat.testBit_and, Nat.testBit_and, testBit_GPIO_ICR_write, testBit_one_shiftLeft,
    testBit_one_shiftLeft]
  by_cases hjk : j = k
  · subst hjk
    simp [h]
  · simp [hjk]

theorem or_one_shiftLeft_and_self_ne_zero (x i : Nat) :
    (x ||| (1 <<< i)) &&& (1 <<< i) ≠ 0 := by
  rw [and_one_shiftLeft_ne_zero_iff, Nat.testBit_or, testBit_one_shiftLeft]
  simp

/-! ### float32 rounding -/

theorem roundTiesToEven_intCast (n : Int) : roundTiesToEven (n : ℚ) = n := by
  unfold roundTiesToEven
  rw [Int.floor_intCast]
  simp

theorem int_log_two_eq (r : ℚ) (e : Int) (h1 : (2 : ℚ) ^ e ≤ r) (h2 : r < (2 : ℚ) ^ (e + 1)) :
    Int.log 2 r = e := by
  have hr : 0 < r := lt_of_lt_of_le (zpow_pos (by norm_num) e) h1
  have a : e ≤ Int.log 2 r :=
    (Int.zpow_le_iff_le_log (by norm_num) hr).mp (by exact_mod_cast h1)
  have b : Int.log 2 r < e + 1 :=
    (Int.lt_zpow_iff_log_lt (by norm_num) hr).mp (by exact_mod_cast h2)
  omega

theorem float32UlpExponent_le (m k : Int) (hm0 : m ≠ 0) (hm : |m| < 2 ^ 24) (hk : -149 ≤ k) :
    float32UlpExponent ((m : ℚ) * (2 : ℚ) ^ k) ≤ k := by
  have h2k : (0 : ℚ) < (2 : ℚ) ^ k := zpow_pos (by norm_num) k
  have habs : |(m : ℚ) * (2 : ℚ) ^ k| = (|m| : ℤ) * (2 : ℚ) ^ k := by
    rw [abs_mul, abs_of_pos h2k, Int.cast_abs]
  have hpos : (0 : ℚ) < |(m : ℚ) * (2 : ℚ) ^ k| := by
    rw [habs]
    exact mul_pos (by exact_mod_cast abs_pos.mpr hm0) h2k
  have hlt : |(m : ℚ) * (2 : ℚ) ^ k| < ((2 : ℕ) : ℚ) ^ (k + 24) := by
    rw [habs, zpow_add₀ (by norm_num), mul_comm ((( 2 : ℕ) : ℚ) ^ k)]
    have h24 : ((|m| : ℤ) : ℚ) < ((2 : ℕ) : ℚ) ^ (24 : ℤ) := by
      have h : ((|m| : ℤ) : ℚ) < ((2 ^ 24 : ℤ) : ℚ) := by exact_mod_cast hm
      have e : ((2 ^ 24 : ℤ) : ℚ) = ((2 : ℕ) : ℚ) ^ (24 : ℤ) := by norm_num
      rw [e] at h
      exact h
    have : ((2 : ℕ) : ℚ) ^ k = (2 : ℚ) ^ k := by norm_num
    rw [this]
    exact mul_lt_mul_of_pos_right h24 h2k
  have hlog : Int.log 2 |(m : ℚ) * (2 : ℚ) ^ k| < k + 24 :=
    (Int.lt_zpow_iff_log_lt (by norm_num) hpos).mp hlt
  unfold float32UlpExponent
  omega

theorem float32Round_of_isFloat32 (x : ℚ) (h : IsFloat32 x) : float32Round x = x := by
  obtain ⟨m, k, hm, hk, rfl⟩ := h
  by_cases hm0 : m = 0
  · subst hm0
    simp [float32Round, roundTiesToEven]
  · have hu := float32UlpExponent_le m k hm0 hm hk
    unfold float32Round
    generalize float32UlpExponent ((m : ℚ) * (2 : ℚ) ^ k) = u at hu
    obtain ⟨n, hn⟩ : ∃ n : ℕ, k = u + n := ⟨(k - u).toNat, by omega⟩
    have h2u : (2 : ℚ) ^ u ≠ 0 := (zpow_pos (by norm_num) u).ne'
    have hq : (m : ℚ) * (2 : ℚ) ^ k / (2 : ℚ) ^ u = ((m * 2 ^ n : ℤ) : ℚ) := by
      rw [hn, zpow_add₀ (by norm_num), zpow_natCast]
      push_cast
      field_simp
      ring
    rw [hq, roundTiesToEven_intCast]
    rw [hn, zpow_add₀ (by norm_num), zpow_natCast]
    push_cast
    ring

theorem isFloat32_intCast (n : Int) (h : |n| < 2 ^ 24) : IsFloat32 (n : ℚ) :=
  ⟨n, 0, h, by decide, by simp⟩

theorem float32Sub_exact (desired : Int) (current : ℚ) (hd : IsFloat32 (desired : ℚ))
    (hdiff : IsFloat32 ((desired : ℚ) - current)) :
    float32Sub desired current = (desired : ℚ) - current := by
  unfold float32Sub
  rw [float32Round_of_isFloat32 _ hd, float32Round_of_isFloat32 _ hdiff]

theorem float32Sub_exact_small (desired : Int) (current : ℚ) (n : Int)
    (h5 : 5 ≤ current) (h40 : current ≤ 40) (hn0 : 0 ≤ n) (hn : n ≤ 10)
    (hdiff : (desired : ℚ) - current = (n : ℚ)) :
    float32Sub desired current = (n : ℚ) := by
  have hlo : ((5 : Int) : ℚ) ≤ (desired : ℚ) := by
    have : (0 : ℚ) ≤ (n : ℚ) := by exact_mod_cast hn0
    push_cast
    linarith
  have hhi : (desired : ℚ) ≤ ((50 : Int) : ℚ) := by
    have : (n : ℚ) ≤ 10 := by exact_mod_cast hn
    push_cast
    linarith
  have hlo' : (5 : Int) ≤ desired := by exact_mod_cast hlo
  have hhi' : desired ≤ 50 := by exact_mod_cast hhi
  have hd : IsFloat32 (desired : ℚ) :=
    isFloat32_intCast desired (by rw [abs_of_nonneg (by omega)]; omega)
  have hx : IsFloat32 ((desired : ℚ) - current) := by
    rw [hdiff]
    exact isFloat32_intCast n (by rw [abs_of_nonneg hn0]; omega)
  rw [float32Sub_exact desired current hd hx, hdiff]

theorem float32Sub_tie :
    float32Sub 15 (10485761 / 2097152) = 10 := by
  have h15 : float32Round ((15 : Int) : ℚ) = 15 := by
    rw [float32Round_of_isFloat32 _ (isFloat32_intCast 15 (by decide))]
    norm_num
  have hx : ((15 : ℚ) - 10485761 / 2097152) = 20971519 / 2097152 := by norm_num
  have hlog : Int.log 2 |(20971519 / 2097152 : ℚ)| = 3 := by
    apply int_log_two_eq
    · rw [abs_of_pos (by norm_num)]; norm_num
    · rw [abs_of_pos (by norm_num)]; norm_num
  have hu : float32UlpExponent (20971519 / 2097152 : ℚ) = -20 := by
    unfold float32UlpExponent
    rw [hlog]
    decide
  have hq : (20971519 / 2097152 : ℚ) / (2 : ℚ) ^ (-20 : ℤ) = 20971519 / 2 := by norm_num
  have hf : ⌊(20971519 / 2 : ℚ)⌋ = 10485759 := by
    rw [Int.floor_eq_iff]
    constructor <;> norm_num
  have hr : roundTiesToEven (20971519 / 2 : ℚ) = 10485760 := by
    unfold roundTiesToEven
    rw [hf]
    norm_num
  unfold float32Sub
  rw [h15, hx]
  unfold float32Round
  rw [hu, hq, hr]
  norm_num

/-- The `if` chain of the Heater Control Task classifies as the spec's
thresholds say. -/
theorem computeHeatIntensity_matches (fsub : Int → ℚ → ℚ) (current : ℚ) (desired : Int) :
    SpecThresholds current (fsub desired current)
      (computeHeatIntensity fsub current desired) := by
  unfold SpecThresholds computeHeatIntensity
  refine ⟨?_, ?_⟩
  · intro h
    rw [if_pos (by rcases h with h | h; exact Or.inl h; exact Or.inr h)]
  · intro h5 h40
    have hin : ¬ (current < 5 ∨ current > 40) := by
      rintro (h | h)
      · exact absurd h (not_lt.mpr h5)
      · exact absurd h (not_lt.mpr h40)
    rw [if_neg hin]
    refine ⟨?_, ?_, ?_, ?_⟩
    · intro h
      rw [if_pos h]
    · intro h1 h2
      rw [if_neg (not_le.mpr h2), if_pos ⟨h1, h2⟩]
    · intro h1 h2
      have h3 : fsub desired current < 10 := by linarith
      rw [if_neg (not_le.mpr h3), if_neg (fun h => absurd h.1 (not_le.mpr h2)),
        if_pos ⟨h1, h2⟩]
    · intro h
      have h3 : fsub desired current < 10 := by linarith
      have h4 : fsub desired current < 5 := by linarith
      rw [if_neg (not_le.mpr h3), if_neg (fun h => absurd h.1 (not_le.mpr h4)),
        if_neg (fun h' => absurd h'.1 (not_le.mpr h))]

/-- Claim C1 fails on the code when `delta` is the exact difference.  The current
temperature 5 + 2 ^ (-21) is a float32 value inside [5, 40]; with the desired
target 15 the exact difference is 10 - 2 ^ (-21), which lies in [5, 10), so the
claim says Medium.  That difference is half way between the neighbouring
float32 values 10 - 2 ^ (-20) and 10, the float32 subtraction rounds it to 10,
and the code classifies the pair as High. -/
theorem C1_exact_difference_below_ten_gives_high :
    IsFloat32 (10485761 / 2097152) ∧
    (5 : ℚ) ≤ 10485761 / 2097152 ∧ (10485761 / 2097152 : ℚ) ≤ 40 ∧
    (5 : ℚ) ≤ ((15 : Int) : ℚ) - 10485761 / 2097152 ∧
    ((15 : Int) : ℚ) - 10485761 / 2097152 < 10 ∧
    float32Sub 15 (10485761 / 2097152) = 10 ∧
    computeHeatIntensity float32Sub (10485761 / 2097152) 15 = HeatIntensity.HIGHINTENSITY ∧
    HeatIntensity.HIGHINTENSITY ≠ HeatIntensity.MEDIUMINTENSITY := by
  refine ⟨⟨10485761, -21, by decide, by decide, by norm_num⟩, by norm_num, by norm_num,
    by norm_num, by norm_num, float32Sub_tie, ?_, by decide⟩
  have h := ((computeHeatIntensity_matches float32Sub (10485761 / 2097152) 15).2
    (by norm_num) (by norm_num)).1
  exact h (by rw [float32Sub_tie])

/-- Claim C1 as amended.  For either seat, one control cycle of the Heater Control
Task (run with the seat's two intensity queues empty, so that it does not block)
assigns and publishes an intensity that depends on nothing but the seat's
current temperature and desired target: `Error` when the current temperature is
below 5 or above 40, and otherwise, with `delta` the float32 value of
desired - current (the exact difference rounded to the nearest float32, ties to
even), `High` for `delta >= 10`, `Medium` for `5 <= delta < 10`, `Low` for
`2 <= delta < 5` and `Off` below 2.  Whenever the desired target and the exact
difference are float32 values, `delta` is the exact difference and the same
classification holds of it.  Current temperatures 5 and 40 are not `Error`; an
exact difference of 2, 5, 10 gives `Low`, `Medium`, `High`. -/
theorem C1_heat_intensity_by_rounded_difference (s : Sys) :
    (s.Controller_HeatingDriver = none → s.Controller_DisplayDriver = none →
      ∃ s', vHeaterControllerTask float32Sub ISDRIVER s = some s' ∧
        s'.heatIntensity =
          computeHeatIntensity float32Sub s.CurrentTempDriver s.DesiredTempDriver ∧
        s'.Controller_HeatingDriver = some s'.heatIntensity ∧
        s'.Controller_DisplayDriver = some s'.heatIntensity) ∧
    (s.Controller_HeatingPassenger = none → s.Controller_DisplayPassenger = none →
      ∃ s', vHeaterControllerTask float32Sub ISPASSENGER s = some s' ∧
        s'.heatIntensity =
          computeHeatIntensity float32Sub s.CurrentTempPassenger s.DesiredTempPassenger ∧
        s'.Controller_HeatingPassenger = some s'.heatIntensity ∧
        s'.Controller_DisplayPassenger = some s'.heatIntensity) ∧
    (∀ (current : ℚ) (desired : Int),
      SpecThresholds current (float32Sub desired current)
        (computeHeatIntensity float32Sub current desired)) ∧
    (∀ (current : ℚ) (desired : Int), IsFloat32 (desired : ℚ) →
      IsFloat32 ((desired : ℚ) - current) →
      float32Sub desired current = (desired : ℚ) - current ∧
      SpecThresholds current ((desired : ℚ) - current)
        (computeHeatIntensity float32Sub current desired)) ∧
    (∀ desired : Int,
      computeHeatIntensity float32Sub 5 desired ≠ HeatIntensity.ERROR ∧
      computeHeatIntensity float32Sub 40 desired ≠ HeatIntensity.ERROR) ∧
    (∀ (current : ℚ) (desired : Int), 5 ≤ current → current ≤ 40 →
      ((desired : ℚ) - current = 2 →
        computeHeatIntensity float32Sub current desired = HeatIntensity.LOWINTENSITY) ∧
      ((desired : ℚ) - current = 5 →
        computeHeatIntensity float32Sub current desired = HeatIntensity.MEDIUMINTENSITY) ∧
      ((desired : ℚ) - current = 10 →
        computeHeatIntensity float32Sub current desired = HeatIntensity.HIGHINTENSITY)) := by
  refine ⟨?_, ?_, computeHeatIntensity_matches float32Sub, ?_, ?_, ?_⟩
  · intro h1 h2
    exact ⟨_, vHeaterControllerTask_driver float32Sub s h1 h2, rfl, rfl, rfl⟩
  · intro h1 h2
    exact ⟨_, vHeaterControllerTask_passenger float32Sub s h1 h2, rfl, rfl, rfl⟩
  · intro current desired hd hdiff
    have e := float32Sub_exact desired current hd hdiff
    refine ⟨e, ?_⟩
    have h := computeHeatIntensity_matches float32Sub current desired
    rw [e] at h
    exact h
  · intro desired
    have hin5 : ¬ ((5 : ℚ) < 5 ∨ (5 : ℚ) > 40) := by norm_num
    have hin40 : ¬ ((40 : ℚ) < 5 ∨ (40 : ℚ) > 40) := by norm_num
    constructor
    · unfold computeHeatIntensity
      rw [if_neg hin5]
      split_ifs <;> simp
    · unfold computeHeatIntensity
      rw [if_neg hin40]
      split_ifs <;> simp
  · intro current desired h5 h40
    obtain ⟨-, hm⟩ := computeHeatIntensity_matches float32Sub current desired
    obtain ⟨hH, hM, hL, -⟩ := hm h5 h40
    refine ⟨fun h => hL ?_ ?_, fun h => hM ?_ ?_, fun h => hH ?_⟩
    · rw [float32Sub_exact_small desired current 2 h5 h40 (by decide) (by decide)
        (by rw [h]; norm_num)]
      norm_num
    · rw [float32Sub_exact_small desired current 2 h5 h40 (by decide) (by decide)
        (by rw [h]; norm_num)]
      norm_num
    · rw [float32Sub_exact_small desired current 5 h5 h40 (by decide) (by decide)
        (by rw [h]; norm_num)]
      norm_num
    · rw [float32Sub_exact_small desired current 5 h5 h40 (by decide) (by decide)
        (by rw [h]; norm_num)]
      norm_num
    · rw [float32Sub_exact_small desired current 10 h5 h40 (by decide) (by decide)
        (by rw [h]; norm_num)]
      norm_num

/-- Claim C1 as amended, at a concrete state: driver at 20 with target 30 (exact
difference 10, a float32 value), passenger at 23 with target 25 (exact
difference 2), all intensity queues empty. -/
theorem C1_heat_intensity_by_rounded_difference_witness :
    (∃ s', vHeaterControllerTask float32Sub ISDRIVER
        { bootSys with CurrentTempDriver := 20, DesiredTempDriver := 30,
                       CurrentTempPassenger := 23, DesiredTempPassenger := 25 } = some s' ∧
      s'.heatIntensity = HeatIntensity.HIGHINTENSITY ∧
      s'.Controller_HeatingDriver = some HeatIntensity.HIGHINTENSITY ∧
      s'.Controller_DisplayDriver = some HeatIntensity.HIGHINTENSITY) ∧
    (∃ s', vHeaterControllerTask float32Sub ISPASSENGER
        { bootSys with CurrentTempDriver := 20, DesiredTempDriver := 30,
                       CurrentTempPassenger := 23, DesiredTempPassenger := 25 } = some s' ∧
      s'.heatIntensity = HeatIntensity.LOWINTENSITY ∧
      s'.Controller_HeatingPassenger = some HeatIntensity.LOWINTENSITY ∧
      s'.Controller_DisplayPassenger = some HeatIntensity.LOWINTENSITY) := by
  have h := C1_heat_intensity_by_rounded_difference
    { bootSys with CurrentTempDriver := 20, DesiredTempDriver := 30,
                   CurrentTempPassenger := 23, DesiredTempPassenger := 25 }
  obtain ⟨hd, hp, -, -, -, hb⟩ := h
  have k1 := (hb 20 30 (by norm_num) (by norm_num)).2.2 (by norm_num)
  have k2 := (hb 23 25 (by norm_num) (by norm_num)).1 (by norm_num)
  constructor
  · obtain ⟨s', h1, h2, h3, h4⟩ := hd rfl rfl
    refine ⟨s', h1, ?_, ?_, ?_⟩
    · rw [h2]; exact k1
    · rw [h3, h2]; exact congrArg some k1
    · rw [h4, h2]; exact congrArg some k1
  · obtain ⟨s', h1, h2, h3, h4⟩ := hp rfl rfl
    refine ⟨s', h1, ?_, ?_, ?_⟩
    · rw [h2]; exact k2
    · rw [h3, h2]; exact congrArg some k2
    · rw [h4, h2]; exact congrArg some k2

/-- Claim C2.  From an initial state (cycle counters 0, event group clear, no edge
pending) and after any sequence of button edges and Setpoint Task turns, of
which `n` are edges of a seat: if the Setpoint Task then wakes with that seat's
event bit set, the desired level it leaves for the seat is entry `n mod 4` of
`[Off, Low, Medium, High]`, however many edges each wake has absorbed.
Equivalently, in every reachable state in which the seat has had an edge and
its event bit is clear (a wake was processed after its last edge), the seat's
desired level is that entry; so it is after every sequence with at least one
edge of the seat that is followed by a turn of the Setpoint Task, and successive
edges, each followed by a wake, take the level through Low, Medium, High and
back to Off. -/
theorem C2_desired_level_follows_edge_count (L : HeatLevels) (s0 : Sys) (h0 : Initial s0)
    (evs : List Event) :
    ((run L s0 evs).eventTempSet &&& mainSW1_INTERRUPT_BIT ≠ 0 →
      (specLevelTable L)[driverEdges evs % 4]? =
        some (run L s0 (evs ++ [Event.wake])).DesiredTempDriver) ∧
    ((run L s0 evs).eventTempSet &&& mainSW2_INTERRUPT_BIT ≠ 0 →
      (specLevelTable L)[passengerEdges evs % 4]? =
        some (run L s0 (evs ++ [Event.wake])).DesiredTempPassenger) ∧
    (0 < driverEdges evs → (run L s0 evs).eventTempSet &&& mainSW1_INTERRUPT_BIT = 0 →
      (specLevelTable L)[driverEdges evs % 4]? = some (run L s0 evs).DesiredTempDriver) ∧
    (0 < passengerEdges evs → (run L s0 evs).eventTempSet &&& mainSW2_INTERRUPT_BIT = 0 →
      (specLevelTable L)[passengerEdges evs % 4]? = some (run L s0 evs).DesiredTempPassenger) ∧
    (0 < driverEdges evs →
      (specLevelTable L)[driverEdges evs % 4]? =
        some (run L s0 (evs ++ [Event.wake])).DesiredTempDriver) ∧
    (0 < passengerEdges evs →
      (specLevelTable L)[passengerEdges evs % 4]? =
        some (run L s0 (evs ++ [Event.wake])).DesiredTempPassenger) := by
  have inv := SetpointInv_run L s0 h0 evs
  have inv' := SetpointInv_run L s0 h0 (evs ++ [Event.wake])
  rw [driverEdges_append_wake, passengerEdges_append_wake] at inv'
  have hrun : run L s0 (evs ++ [Event.wake]) = step L (run L s0 evs) Event.wake := by
    simp [run, List.foldl_append]
  have hclr := step_wake_clears L (run L s0 evs)
  rw [← hrun] at hclr
  refine ⟨?_, ?_, ?_, ?_, ?_, ?_⟩
  · intro hb
    have b0 : (run L s0 evs).eventTempSet.testBit 0 = true :=
      (and_one_shiftLeft_ne_zero_iff _ 0).mp hb
    rw [hrun]
    unfold step
    rw [vTempSettingTask_woken L _ (Or.inl b0)]
    show _ = some (if (run L s0 evs).eventTempSet.testBit 0 = true then
      heatLevelSwitch L (run L s0 evs).DriverState (run L s0 evs).DesiredTempDriver
      else (run L s0 evs).DesiredTempDriver)
    rw [if_pos b0, inv.driverState]
    exact heatLevelSwitch_table L _ _
  · intro hb
    have b1 : (run L s0 evs).eventTempSet.testBit 1 = true :=
      (and_one_shiftLeft_ne_zero_iff _ 1).mp hb
    rw [hrun]
    unfold step
    rw [vTempSettingTask_woken L _ (Or.inr b1)]
    show _ = some (if (run L s0 evs).eventTempSet.testBit 1 = true then
      heatLevelSwitch L (run L s0 evs).PassengerState (run L s0 evs).DesiredTempPassenger
      else (run L s0 evs).DesiredTempPassenger)
    rw [if_pos b1, inv.passengerState]
    exact heatLevelSwitch_table L _ _
  · intro hn hb
    rcases inv.driverLevel ((and_one_shiftLeft_eq_zero_iff _ 0).mp hb) with h | h
    · omega
    · exact h
  · intro hn hb
    rcases inv.passengerLevel ((and_one_shiftLeft_eq_zero_iff _ 1).mp hb) with h | h
    · omega
    · exact h
  · intro hn
    rcases inv'.driverLevel hclr.1 with h | h
    · omega
    · exact h
  · intro hn
    rcases inv'.passengerLevel hclr.2 with h | h
    · omega
    · exact h

/-- Claim C2 at concrete inputs, from the boot state with levels 0, 25, 30, 35:
two driver edges (one on each driver pin) absorbed by a single wake leave the
driver at Medium, and one passenger edge followed by a wake leaves the passenger
at Low. -/
theorem C2_desired_level_follows_edge_count_witness :
    Initial bootSys ∧
    (run sampleLevels bootSys
      [Event.edgePF0, Event.edgePF4, Event.edgePB0, Event.wake]).DesiredTempDriver = 30 ∧
    (run sampleLevels bootSys
      [Event.edgePF0, Event.edgePF4, Event.edgePB0, Event.wake]).DesiredTempPassenger = 25 := by
  have hi : Initial bootSys := by
    unfold Initial bootSys
    decide
  have h := C2_desired_level_follows_edge_count sampleLevels bootSys hi
    [Event.edgePF0, Event.edgePF4, Event.edgePB0]
  obtain ⟨hd, hp, -, -, -, -⟩ := h
  have hd' := hd (by decide)
  have hp' := hp (by decide)
  refine ⟨hi, ?_, ?_⟩
  · have e : (specLevelTable sampleLevels)[driverEdges
        [Event.edgePF0, Event.edgePF4, Event.edgePB0] % 4]? = some 30 := by decide
    rw [e] at hd'
    exact (Option.some.inj hd').symm
  · have e : (specLevelTable sampleLevels)[passengerEdges
        [Event.edgePF0, Event.edgePF4, Event.edgePB0] % 4]? = some 25 := by decide
    rw [e] at hp'
    exact (Option.some.inj hp').symm

/-- Claim C3.  For either seat and each of the five intensity values, one pass of
the LED Indicator Task that receives the value from the seat's queue leaves the
seat's (red, blue, green) outputs as the lookup table says - Error (on, off,
off), Off (off, off, off), Low (off, off, on), Medium (off, on, off), High (off,
on, on) - whatever the outputs were before. -/
theorem C3_led_pattern_per_table (v : HeatIntensity) (s : Sys) :
    (s.Controller_HeatingDriver = some v →
      ∃ s', vHeaterLedsControllerTask ISDRIVER s = some s' ∧
        (s'.RedLed1, s'.BlueLed1, s'.GreenLed1) = specLedTable v) ∧
    (s.Controller_HeatingPassenger = some v →
      ∃ s', vHeaterLedsControllerTask ISPASSENGER s = some s' ∧
        (s'.RedLed2, s'.BlueLed2, s'.GreenLed2) = specLedTable v) ∧
    specLedTable HeatIntensity.ERROR = (true, false, false) ∧
    specLedTable HeatIntensity.INTENSITYOFF = (false, false, false) ∧
    specLedTable HeatIntensity.LOWINTENSITY = (false, false, true) ∧
    specLedTable HeatIntensity.MEDIUMINTENSITY = (false, true, false) ∧
    specLedTable HeatIntensity.HIGHINTENSITY = (false, true, true) := by
  refine ⟨?_, ?_, rfl, rfl, rfl, rfl, rfl⟩
  · intro h
    exact ⟨_, vHeaterLedsControllerTask_driver v s h, rfl⟩
  · intro h
    exact ⟨_, vHeaterLedsControllerTask_passenger v s h, rfl⟩

/-- Claim C3 at a concrete state: the driver's outputs all on and Medium received;
the passenger's outputs all off and Error received. -/
theorem C3_led_pattern_per_table_witness :
    (∃ s', vHeaterLedsControllerTask ISDRIVER
        { bootSys with RedLed1 := true, BlueLed1 := true, GreenLed1 := true,
                       Controller_HeatingDriver := some HeatIntensity.MEDIUMINTENSITY } = some s' ∧
      (s'.RedLed1, s'.BlueLed1, s'.GreenLed1) = (false, true, false)) ∧
    (∃ s', vHeaterLedsControllerTask ISPASSENGER
        { bootSys with Controller_HeatingPassenger := some HeatIntensity.ERROR } = some s' ∧
      (s'.RedLed2, s'.BlueLed2, s'.GreenLed2) = (true, false, false)) :=
  ⟨(C3_led_pattern_per_table HeatIntensity.MEDIUMINTENSITY
      { bootSys with RedLed1 := true, BlueLed1 := true, GreenLed1 := true,
                     Controller_HeatingDriver := some HeatIntensity.MEDIUMINTENSITY }).1 rfl,
   (C3_led_pattern_per_table HeatIntensity.ERROR
      { bootSys with Controller_HeatingPassenger := some HeatIntensity.ERROR }).2.1 rfl⟩

/-- Claim C4.  For either seat and every received temperature byte, desired level
and received intensity, one pass of the Display Task appends to the UART output
exactly the status block: the seat label (`Driver:` or `Passenger:`), the text
`\nCurrent Temperature = ` and the received temperature byte, the text
`\nRequired Heat Level = ` and the desired level read from the seat's cell (as
a byte), and the text `\nThe Heater is Working with ` followed by the intensity
text (`NO Intensity due to error`, `NO Intensity`, `LOW Intensity`,
`MEDIUM Intensity`, `HIGH Intensity`). -/
theorem C4_display_status_block (temperature : Nat) (v : HeatIntensity) (s : Sys) :
    (s.Reading_DisplayDriver = some temperature → s.Controller_DisplayDriver = some v →
      ∃ s', vDisplayTask ISDRIVER s = some s' ∧
        s'.uart = s.uart ++ specStatusBlock "Driver:" temperature s.DesiredTempDriver v) ∧
    (s.Reading_DisplayPassenger = some temperature → s.Controller_DisplayPassenger = some v →
      ∃ s', vDisplayTask ISPASSENGER s = some s' ∧
        s'.uart = s.uart ++ specStatusBlock "Passenger:" temperature s.DesiredTempPassenger v) ∧
    specIntensityText HeatIntensity.ERROR = "NO Intensity due to error" ∧
    specIntensityText HeatIntensity.INTENSITYOFF = "NO Intensity" ∧
    specIntensityText HeatIntensity.LOWINTENSITY = "LOW Intensity" ∧
    specIntensityText HeatIntensity.MEDIUMINTENSITY = "MEDIUM Intensity" ∧
    specIntensityText HeatIntensity.HIGHINTENSITY = "HIGH Intensity" := by
  refine ⟨?_, ?_, rfl, rfl, rfl, rfl, rfl⟩
  · intro h1 h2
    exact ⟨_, vDisplayTask_driver temperature v s h1 h2, rfl⟩
  · intro h1 h2
    exact ⟨_, vDisplayTask_passenger temperature v s h1 h2, rfl⟩

/-- Claim C4 at a concrete state: the driver's Display Task receives the byte 50
and Medium while the desired-level cell holds 51; the passenger's receives the
byte 65 and Error while the cell holds 66. -/
theorem C4_display_status_block_witness :
    (∃ s', vDisplayTask ISDRIVER
        { bootSys with Reading_DisplayDriver := some 50, DesiredTempDriver := 51,
                       Controller_DisplayDriver := some HeatIntensity.MEDIUMINTENSITY } = some s' ∧
      s'.uart = ("Driver:\nCurrent Temperature = 2\nRequired Heat Level = 3" ++
        "\nThe Heater is Working with MEDIUM Intensity").toList) ∧
    (∃ s', vDisplayTask ISPASSENGER
        { bootSys with Reading_DisplayPassenger := some 65, DesiredTempPassenger := 66,
                       Controller_DisplayPassenger := some HeatIntensity.ERROR } = some s' ∧
      s'.uart = ("Passenger:\nCurrent Temperature = A\nRequired Heat Level = B" ++
        "\nThe Heater is Working with NO Intensity due to error").toList) := by
  constructor
  · obtain ⟨s', h1, h2⟩ := (C4_display_status_block 50 HeatIntensity.MEDIUMINTENSITY
      { bootSys with Reading_DisplayDriver := some 50, DesiredTempDriver := 51,
                     Controller_DisplayDriver := some HeatIntensity.MEDIUMINTENSITY }).1 rfl rfl
    refine ⟨s', h1, ?_⟩
    rw [h2]
    decide
  · obtain ⟨s', h1, h2⟩ := (C4_display_status_block 65 HeatIntensity.ERROR
      { bootSys with Reading_DisplayPassenger := some 65, DesiredTempPassenger := 66,
                     Controller_DisplayPassenger := some HeatIntensity.ERROR }).2.1 rfl rfl
    refine ⟨s', h1, ?_⟩
    rw [h2]
    decide

/-- Claim C6, evaluated on the code.  With the task-time sum equal to the counter
reading at 42949673, the product by 100 leaves the `uint32` range and the load
computed is 0, not 100; the load is 100 for equal sum and reading as long as 100
times the sum stays below `2 ^ 32`. -/
theorem C6_scaling_overflows_uint32 :
    ullTotalTasksTime (onlyTaskOne 42949673) = 42949673 ∧
    ucCPU_Load (onlyTaskOne 42949673) 42949673 = some 0 ∧
    (∀ (acc : Nat → Nat) (reading : Nat), reading ≠ 0 → ullTotalTasksTime acc = reading →
      ullTotalTasksTime acc * 100 < 2 ^ 32 → ucCPU_Load acc reading = some 100) := by
  refine ⟨?_, ?_, ?_⟩
  · rw [ullTotalTasksTime_onlyTaskOne]
    decide
  · rw [ucCPU_Load_of_ne_zero _ _ (by decide), ullTotalTasksTime_onlyTaskOne]
    decide
  · intro acc reading hr hs hlt
    rw [ucCPU_Load_of_ne_zero _ _ hr, Nat.mod_eq_of_lt hlt, hs,
      Nat.mul_div_cancel_left 100 (Nat.pos_of_ne_zero hr)]
    rfl

/-- Claim C7 fails on the code: with an accumulator sum of 2 and a counter reading
of 1 the load computed is 200, above 100; with a sum of 3 the quotient 300 wraps
in the `uint8` variable to 44. -/
theorem C7_load_not_clamped :
    ucCPU_Load (onlyTaskOne 2) 1 = some 200 ∧ (100 : Nat) < 200 ∧
    ucCPU_Load (onlyTaskOne 3) 1 = some 44 := by
  refine ⟨?_, by decide, ?_⟩
  · rw [ucCPU_Load_of_ne_zero _ _ (by decide), ullTotalTasksTime_onlyTaskOne]
    decide
  · rw [ucCPU_Load_of_ne_zero _ _ (by decide), ullTotalTasksTime_onlyTaskOne]
    decide

/-- Claim C7 as amended.  The load computed by the Runtime Monitor is not
clamped; it is a value below 256, and it is at most 100 whenever the
(32-bit) sum of the accumulators of tasks 1 to 11 does not exceed the counter
reading, the reading being non-zero. -/
theorem C7_load_at_most_100_when_sum_le_reading (acc : Nat → Nat) (reading : Nat)
    (hr : reading ≠ 0) (hle : ullTotalTasksTime acc ≤ reading) :
    ∃ v, ucCPU_Load acc reading = some v ∧ v ≤ 100 ∧ v < 2 ^ 8 := by
  refine ⟨_, ucCPU_Load_of_ne_zero acc reading hr, ?_, Nat.mod_lt _ (by decide)⟩
  have hpos : 0 < reading := Nat.pos_of_ne_zero hr
  have h1 : (ullTotalTasksTime acc * 100) % 2 ^ 32 ≤ reading * 100 :=
    le_trans (Nat.mod_le _ _) (Nat.mul_le_mul_right 100 hle)
  have h2 : (ullTotalTasksTime acc * 100) % 2 ^ 32 / reading ≤ 100 := by
    calc (ullTotalTasksTime acc * 100) % 2 ^ 32 / reading
        ≤ reading * 100 / reading := Nat.div_le_div_right h1
      _ = 100 := Nat.mul_div_cancel_left 100 hpos
  exact le_trans (Nat.mod_le _ _) h2

/-- Claim C7 as amended, at a concrete input: task 1 has run 30 of 40 counts. -/
theorem C7_load_at_most_100_when_sum_le_reading_witness :
    (40 : Nat) ≠ 0 ∧ ullTotalTasksTime (onlyTaskOne 30) ≤ 40 ∧
    ∃ v, ucCPU_Load (onlyTaskOne 30) 40 = some v ∧ v ≤ 100 ∧ v < 2 ^ 8 :=
  ⟨by decide, by rw [ullTotalTasksTime_onlyTaskOne]; decide,
   C7_load_at_most_100_when_sum_le_reading (onlyTaskOne 30) 40 (by decide)
     (by rw [ullTotalTasksTime_onlyTaskOne]; decide)⟩

/-- Claim C8, evaluated on the code.  With all accumulators zero and a counter
reading of 0 the division `0 / 0` is undefined and no load is computed; for
every non-zero reading, accumulators of tasks 1 to 11 that are all zero give the
load 0. -/
theorem C8_zero_time_zero_reading_undefined :
    ucCPU_Load (fun _ => 0) 0 = none ∧
    (∀ s : Sys, vRunTimeMeasurementsTask 0 s = none) ∧
    (∀ (acc : Nat → Nat) (reading : Nat), (∀ i, 1 ≤ i → i ≤ 11 → acc i = 0) →
      reading ≠ 0 → ucCPU_Load acc reading = some 0) := by
  refine ⟨rfl, fun s => rfl, ?_⟩
  intro acc reading hz hr
  rw [ucCPU_Load_of_ne_zero _ _ hr, ullTotalTasksTime_zero acc hz]
  simp

/-- Claim C9 fails on the code: two histories with the same increments in the
window (task 1 runs 50 of 100 ticks) report different loads, 50 when nothing
happened before the window and 75 when task 2 ran for the 100 ticks before it. -/
theorem C9_load_depends_on_earlier_totals :
    freshHistory.increment = busyHistory.increment ∧
    freshHistory.elapsed = busyHistory.elapsed ∧
    freshHistory.reportedLoad = some 50 ∧
    busyHistory.reportedLoad = some 75 := by
  refine ⟨rfl, rfl, ?_, ?_⟩
  · unfold History.reportedLoad
    rw [ucCPU_Load_of_ne_zero _ _ (by decide), ullTotalTasksTime_eq_sum]
    decide
  · unfold History.reportedLoad
    rw [ucCPU_Load_of_ne_zero _ _ (by decide), ullTotalTasksTime_eq_sum]
    decide

/-- Claim C9 as amended.  The load reported in a cycle is computed from the running
totals of the accumulators of tasks 1 to 11 and from the absolute reading of the
hardware counter, not from what was added during the last window: two
histories that agree on those totals and on that reading report the same load,
however the totals split between the window and the time before it. -/
theorem C9_load_determined_by_running_totals (h1 h2 : History)
    (hacc : ∀ i, 1 ≤ i → i ≤ 11 → h1.accumulators i = h2.accumulators i)
    (hread : h1.reading = h2.reading) :
    h1.reportedLoad = h2.reportedLoad ∧
    h1.reportedLoad = ucCPU_Load (fun i => (h1.timeBefore i + h1.increment i) % 2 ^ 32)
      ((h1.readingBefore + h1.elapsed) % 2 ^ 32) := by
  refine ⟨?_, rfl⟩
  unfold History.reportedLoad ucCPU_Load
  rw [ullTotalTasksTime_congr _ _ hacc, hread]

/-- Claim C9 as amended, at concrete inputs: `freshHistory` (50 of 100 ticks, all
in the window) and `splitHistory` (20 of 40 ticks before the window, 30 of 60 in
it) have the same totals and report the same load. -/
theorem C9_load_determined_by_running_totals_witness :
    freshHistory.increment 1 ≠ splitHistory.increment 1 ∧
    freshHistory.reportedLoad = splitHistory.reportedLoad :=
  ⟨by decide,
   (C9_load_determined_by_running_totals freshHistory splitHistory
     (fun i _ _ => by
       unfold History.accumulators freshHistory splitHistory onlyTaskOne
       by_cases hi : i = 1
       · simp [hi]
       · simp [hi])
     rfl).1⟩

/-- Claim C10 fails on the code: when the driver's edge (PF0) and the passenger's
edge (PF4) are pending together, one invocation of `GPIOPortF_Handler` services
the driver only; the passenger's cycle counter is not advanced, its event bit is
not set and its pending flag is still set on return. -/
theorem C10_passenger_edge_not_serviced_when_both_pending :
    ({ bootSys with GPIO_PORTF_RIS_REG := 17 } : Sys).GPIO_PORTF_RIS_REG &&& (1 <<< 0) ≠ 0 ∧
    ({ bootSys with GPIO_PORTF_RIS_REG := 17 } : Sys).GPIO_PORTF_RIS_REG &&& (1 <<< 4) ≠ 0 ∧
    (GPIOPortF_Handler { bootSys with GPIO_PORTF_RIS_REG := 17 }).DriverState = 1 ∧
    (GPIOPortF_Handler { bootSys with GPIO_PORTF_RIS_REG := 17 }).PassengerState = 0 ∧
    (GPIOPortF_Handler { bootSys with GPIO_PORTF_RIS_REG := 17 }).eventTempSet &&&
      mainSW2_INTERRUPT_BIT = 0 ∧
    (GPIOPortF_Handler { bootSys with GPIO_PORTF_RIS_REG := 17 }).GPIO_PORTF_RIS_REG &&&
      (1 <<< 4) ≠ 0 := by
  decide

/-- Claim C10 as amended.  An invocation of `GPIOPortF_Handler` services one seat:
the driver when the driver's edge (PF0) is pending, otherwise the passenger when
the passenger's edge (PF4) is pending; `GPIOPortB_Handler` services the driver
when PB0 is pending.  For the serviced seat the handler advances the cycle
counter to (old + 1) mod 4, sets the seat's bit in the event group and clears
the seat's pending flag.  When the driver's edge is pending on port F the
passenger's counter and pending flag are left as they are, so that a passenger
edge pending at the same time is serviced by the next invocation. -/
theorem C10_handler_services_one_seat (s : Sys) :
    (s.GPIO_PORTF_RIS_REG &&& (1 <<< 0) ≠ 0 →
      (GPIOPortF_Handler s).DriverState = (s.DriverState + 1) % 4 ∧
      (GPIOPortF_Handler s).eventTempSet = s.eventTempSet ||| mainSW1_INTERRUPT_BIT ∧
      (GPIOPortF_Handler s).eventTempSet &&& mainSW1_INTERRUPT_BIT ≠ 0 ∧
      (GPIOPortF_Handler s).GPIO_PORTF_RIS_REG &&& (1 <<< 0) = 0 ∧
      (GPIOPortF_Handler s).PassengerState = s.PassengerState ∧
      (GPIOPortF_Handler s).GPIO_PORTF_RIS_REG &&& (1 <<< 4) =
        s.GPIO_PORTF_RIS_REG &&& (1 <<< 4)) ∧
    (s.GPIO_PORTF_RIS_REG &&& (1 <<< 0) = 0 → s.GPIO_PORTF_RIS_REG &&& (1 <<< 4) ≠ 0 →
      (GPIOPortF_Handler s).PassengerState = (s.PassengerState + 1) % 4 ∧
      (GPIOPortF_Handler s).eventTempSet = s.eventTempSet ||| mainSW2_INTERRUPT_BIT ∧
      (GPIOPortF_Handler s).eventTempSet &&& mainSW2_INTERRUPT_BIT ≠ 0 ∧
      (GPIOPortF_Handler s).GPIO_PORTF_RIS_REG &&& (1 <<< 4) = 0 ∧
      (GPIOPortF_Handler s).DriverState = s.DriverState) ∧
    (s.GPIO_PORTB_RIS_REG &&& (1 <<< 0) ≠ 0 →
      (GPIOPortB_Handler s).DriverState = (s.DriverState + 1) % 4 ∧
      (GPIOPortB_Handler s).eventTempSet = s.eventTempSet ||| mainSW1_INTERRUPT_BIT ∧
      (GPIOPortB_Handler s).eventTempSet &&& mainSW1_INTERRUPT_BIT ≠ 0 ∧
      (GPIOPortB_Handler s).GPIO_PORTB_RIS_REG &&& (1 <<< 0) = 0 ∧
      (GPIOPortB_Handler s).PassengerState = s.PassengerState) ∧
    (s.GPIO_PORTF_RIS_REG &&& (1 <<< 0) ≠ 0 → s.GPIO_PORTF_RIS_REG &&& (1 <<< 4) ≠ 0 →
      (GPIOPortF_Handler (GPIOPortF_Handler s)).DriverState = (s.DriverState + 1) % 4 ∧
      (GPIOPortF_Handler (GPIOPortF_Handler s)).PassengerState = (s.PassengerState + 1) % 4 ∧
      (GPIOPortF_Handler (GPIOPortF_Handler s)).GPIO_PORTF_RIS_REG &&& (1 <<< 0) = 0 ∧
      (GPIOPortF_Handler (GPIOPortF_Handler s)).GPIO_PORTF_RIS_REG &&& (1 <<< 4) = 0) := by
  have driverF : s.GPIO_PORTF_RIS_REG &&& (1 <<< 0) ≠ 0 →
      (GPIOPortF_Handler s).DriverState = (s.DriverState + 1) % 4 ∧
      (GPIOPortF_Handler s).eventTempSet = s.eventTempSet ||| mainSW1_INTERRUPT_BIT ∧
      (GPIOPortF_Handler s).eventTempSet &&& mainSW1_INTERRUPT_BIT ≠ 0 ∧
      (GPIOPortF_Handler s).GPIO_PORTF_RIS_REG &&& (1 <<< 0) = 0 ∧
      (GPIOPortF_Handler s).PassengerState = s.PassengerState ∧
      (GPIOPortF_Handler s).GPIO_PORTF_RIS_REG &&& (1 <<< 4) =
        s.GPIO_PORTF_RIS_REG &&& (1 <<< 4) := by
    intro h
    rw [GPIOPortF_Handler_driver s ((and_one_shiftLeft_ne_zero_iff _ _).mp h)]
    exact ⟨rfl, rfl, or_one_shiftLeft_and_self_ne_zero _ 0, GPIO_ICR_write_and_self _ 0, rfl,
      GPIO_ICR_write_and_other _ 0 4 (by decide)⟩
  have passengerF : ∀ t : Sys, t.GPIO_PORTF_RIS_REG &&& (1 <<< 0) = 0 →
      t.GPIO_PORTF_RIS_REG &&& (1 <<< 4) ≠ 0 →
      (GPIOPortF_Handler t).PassengerState = (t.PassengerState + 1) % 4 ∧
      (GPIOPortF_Handler t).eventTempSet = t.eventTempSet ||| mainSW2_INTERRUPT_BIT ∧
      (GPIOPortF_Handler t).eventTempSet &&& mainSW2_INTERRUPT_BIT ≠ 0 ∧
      (GPIOPortF_Handler t).GPIO_PORTF_RIS_REG &&& (1 <<< 4) = 0 ∧
      (GPIOPortF_Handler t).DriverState = t.DriverState ∧
      (GPIOPortF_Handler t).GPIO_PORTF_RIS_REG &&& (1 <<< 0) = 0 := by
    intro t h0 h4
    rw [GPIOPortF_Handler_passenger t ((and_one_shiftLeft_eq_zero_iff _ _).mp h0)
      ((and_one_shiftLeft_ne_zero_iff _ _).mp h4)]
    refine ⟨rfl, rfl, or_one_shiftLeft_and_self_ne_zero _ 1, GPIO_ICR_write_and_self _ 4, rfl,
      ?_⟩
    exact (GPIO_ICR_write_and_other _ 4 0 (by decide)).trans h0
  refine ⟨driverF, ?_, ?_, ?_⟩
  · intro h0 h4
    obtain ⟨a, b, c, d, e, -⟩ := passengerF s h0 h4
    exact ⟨a, b, c, d, e⟩
  · intro h
    rw [GPIOPortB_Handler_driver s ((and_one_shiftLeft_ne_zero_iff _ _).mp h)]
    exact ⟨rfl, rfl, or_one_shiftLeft_and_self_ne_zero _ 0, GPIO_ICR_write_and_self _ 0, rfl⟩
  · intro h0 h4
    obtain ⟨d1, -, -, r0, p1, r4⟩ := driverF h0
    obtain ⟨p2, -, -, q4, d2, q0⟩ := passengerF (GPIOPortF_Handler s) r0 (by rw [r4]; exact h4)
    exact ⟨d2.trans d1, by rw [p2, p1], q0, q4⟩

/-- Claim C10 as amended, at a concrete state: both port F edges pending in the
boot state.  The first invocation advances the driver's counter only; after the
second both counters are 1 and no edge is pending. -/
theorem C10_handler_services_one_seat_witness :
    ({ bootSys with GPIO_PORTF_RIS_REG := 17 } : Sys).GPIO_PORTF_RIS_REG &&& (1 <<< 0) ≠ 0 ∧
    ({ bootSys with GPIO_PORTF_RIS_REG := 17 } : Sys).GPIO_PORTF_RIS_REG &&& (1 <<< 4) ≠ 0 ∧
    (GPIOPortF_Handler { bootSys with GPIO_PORTF_RIS_REG := 17 }).DriverState = (0 + 1) % 4 ∧
    (GPIOPortF_Handler (GPIOPortF_Handler
      { bootSys with GPIO_PORTF_RIS_REG := 17 })).PassengerState = (0 + 1) % 4 ∧
    (GPIOPortF_Handler (GPIOPortF_Handler
      { bootSys with GPIO_PORTF_RIS_REG := 17 })).GPIO_PORTF_RIS_REG &&& (1 <<< 4) = 0 :=
  ⟨by decide, by decide,
   ((C10_handler_services_one_seat { bootSys with GPIO_PORTF_RIS_REG := 17 }).1
     (by decide)).1,
   ((C10_handler_services_one_seat { bootSys with GPIO_PORTF_RIS_REG := 17 }).2.2.2
     (by decide) (by decide)).2.1,
   ((C10_handler_services_one_seat { bootSys with GPIO_PORTF_RIS_REG := 17 }).2.2.2
     (by decide) (by decide)).2.2.2⟩

/-- Claim C11 fails on the code: woken for the driver with the driver's cycle
counter at 4 and the desired level at 25, the Setpoint Task leaves the level at
25, which is not the value 0 of Off. -/
theorem C11_stale_level_kept_outside_domain :
    strayCounterSys.DriverState = 4 ∧
    strayCounterSys.eventTempSet &&& mainSW1_INTERRUPT_BIT ≠ 0 ∧
    (vTempSettingTask sampleLevels strayCounterSys).map (fun s => s.DesiredTempDriver) =
      some 25 ∧
    (25 : Int) ≠ sampleLevels.OFF := by
  decide

/-- Claim C11 as amended.  If the Setpoint Task is woken for a seat while that
seat's cycle counter is outside {0, 1, 2, 3}, it stores nothing for the seat: the
desired level keeps the value stored before (the `switch` has no `default`). -/
theorem C11_level_unchanged_outside_domain (L : HeatLevels) (s : Sys) :
    (s.eventTempSet &&& mainSW1_INTERRUPT_BIT ≠ 0 → 4 ≤ s.DriverState →
      ∃ s', vTempSettingTask L s = some s' ∧ s'.DesiredTempDriver = s.DesiredTempDriver) ∧
    (s.eventTempSet &&& mainSW2_INTERRUPT_BIT ≠ 0 → 4 ≤ s.PassengerState →
      ∃ s', vTempSettingTask L s = some s' ∧
        s'.DesiredTempPassenger = s.DesiredTempPassenger) := by
  constructor
  · intro hb hn
    have b0 : s.eventTempSet.testBit 0 = true := (and_one_shiftLeft_ne_zero_iff _ 0).mp hb
    refine ⟨_, vTempSettingTask_woken L s (Or.inl b0), ?_⟩
    show (if s.eventTempSet.testBit 0 = true then
      heatLevelSwitch L s.DriverState s.DesiredTempDriver else s.DesiredTempDriver) = _
    rw [if_pos b0, heatLevelSwitch_outside L _ _ hn]
  · intro hb hn
    have b1 : s.eventTempSet.testBit 1 = true := (and_one_shiftLeft_ne_zero_iff _ 1).mp hb
    refine ⟨_, vTempSettingTask_woken L s (Or.inr b1), ?_⟩
    show (if s.eventTempSet.testBit 1 = true then
      heatLevelSwitch L s.PassengerState s.DesiredTempPassenger
      else s.DesiredTempPassenger) = _
    rw [if_pos b1, heatLevelSwitch_outside L _ _ hn]

/-- Claim C11 as amended, at the concrete state `strayCounterSys`: the driver's
level stays 25. -/
theorem C11_level_unchanged_outside_domain_witness :
    strayCounterSys.eventTempSet &&& mainSW1_INTERRUPT_BIT ≠ 0 ∧
    4 ≤ strayCounterSys.DriverState ∧
    ∃ s', vTempSettingTask sampleLevels strayCounterSys = some s' ∧
      s'.DesiredTempDriver = 25 :=
  ⟨by decide, by decide,
   (C11_level_unchanged_outside_domain sampleLevels strayCounterSys).1 (by decide)
     (by decide)⟩

/-- Claim C12, evaluated on the code.  A pass of the Temperature Sampling Task
stores the float32 value `adc_value` in the seat's current-temperature cell and
pushes one byte, the first byte of that value's representation, into the seat's
Sampling to Display queue.  The byte is a number below 256, so it differs from
the stored value whenever the stored value is not such a number, for every
layout of float32, and it is the byte the Display Task then receives and
transmits; at the stored value 3574691 / 262144 (13.636364, the float32
product of the sample 1 and 45 / 3.3) what is pushed is not what is stored. -/
theorem C12_pushed_byte_is_not_stored_value (firstByte : ℚ → Nat) (s : Sys) :
    (∀ adc_value : ℚ, s.Reading_DisplayDriver = none →
      ∃ s', vTempReadingTask firstByte ISDRIVER adc_value s = some s' ∧
        s'.CurrentTempDriver = adc_value ∧
        s'.Reading_DisplayDriver = some (firstByte adc_value % 2 ^ 8)) ∧
    (∀ adc_value : ℚ, s.Reading_DisplayPassenger = none →
      ∃ s', vTempReadingTask firstByte ISPASSENGER adc_value s = some s' ∧
        s'.CurrentTempPassenger = adc_value ∧
        s'.Reading_DisplayPassenger = some (firstByte adc_value % 2 ^ 8)) ∧
    (∀ (adc_value : ℚ) (v : HeatIntensity), s.Reading_DisplayDriver = none →
      s.Controller_DisplayDriver = some v →
      ∃ s1 s2, vTempReadingTask firstByte ISDRIVER adc_value s = some s1 ∧
        vDisplayTask ISDRIVER s1 = some s2 ∧
        s2.uart = s.uart ++
          specStatusBlock "Driver:" (firstByte adc_value % 2 ^ 8) s.DesiredTempDriver v) ∧
    (∀ (adc_value : ℚ) (v : HeatIntensity), s.Reading_DisplayPassenger = none →
      s.Controller_DisplayPassenger = some v →
      ∃ s1 s2, vTempReadingTask firstByte ISPASSENGER adc_value s = some s1 ∧
        vDisplayTask ISPASSENGER s1 = some s2 ∧
        s2.uart = s.uart ++
          specStatusBlock "Passenger:" (firstByte adc_value % 2 ^ 8)
            s.DesiredTempPassenger v) ∧
    (∀ adc_value : ℚ, (¬ ∃ n : Nat, n < 2 ^ 8 ∧ adc_value = (n : ℚ)) →
      ((firstByte adc_value % 2 ^ 8 : Nat) : ℚ) ≠ adc_value) ∧
    ((firstByte (3574691 / 262144) % 2 ^ 8 : Nat) : ℚ) ≠ 3574691 / 262144 := by
  have key : ∀ adc_value : ℚ, (¬ ∃ n : Nat, n < 2 ^ 8 ∧ adc_value = (n : ℚ)) →
      ((firstByte adc_value % 2 ^ 8 : Nat) : ℚ) ≠ adc_value := fun adc_value hx =>
    byte_ne_of_not_byte _ _ (Nat.mod_lt _ (by decide)) hx
  refine ⟨?_, ?_, ?_, ?_, key, ?_⟩
  · intro adc_value h
    exact ⟨_, vTempReadingTask_driver firstByte adc_value s h, rfl, rfl⟩
  · intro adc_value h
    exact ⟨_, vTempReadingTask_passenger firstByte adc_value s h, rfl, rfl⟩
  · intro adc_value v h hv
    exact ⟨_, _, vTempReadingTask_driver firstByte adc_value s h,
      vDisplayTask_driver (firstByte adc_value % 2 ^ 8) v _ rfl hv, rfl⟩
  · intro adc_value v h hv
    exact ⟨_, _, vTempReadingTask_passenger firstByte adc_value s h,
      vDisplayTask_passenger (firstByte adc_value % 2 ^ 8) v _ rfl hv, rfl⟩
  · apply key
    rintro ⟨n, -, hn⟩
    have h1 : (3574691 : ℚ) = (n : ℚ) * 262144 := by
      rw [← hn]; norm_num
    have h2 : (3574691 : ℕ) = n * 262144 := by exact_mod_cast h1
    omega

/-- Claim C13.  From a state with both cycle counters 0 and after any sequence of
invocations of `GPIOPortF_Handler` and `GPIOPortB_Handler` (each entered with any
raw interrupt status) and turns of the Setpoint Task, `DriverState` and
`PassengerState` are in {0, 1, 2, 3}, so the `switch` of the Setpoint Task on
either counter selects an entry of the table `[Off, Low, Medium, High]`. -/
theorem C13_cycle_counters_stay_in_domain (L : HeatLevels) (s0 : Sys)
    (hd0 : s0.DriverState = 0) (hp0 : s0.PassengerState = 0) (invs : List Invocation) :
    (invokeAll L s0 invs).DriverState < 4 ∧
    (invokeAll L s0 invs).PassengerState < 4 ∧
    (∀ old : Int, (specLevelTable L)[(invokeAll L s0 invs).DriverState]? =
      some (heatLevelSwitch L (invokeAll L s0 invs).DriverState old)) ∧
    (∀ old : Int, (specLevelTable L)[(invokeAll L s0 invs).PassengerState]? =
      some (heatLevelSwitch L (invokeAll L s0 invs).PassengerState old)) := by
  obtain ⟨hd, hp⟩ := invokeAll_counters L s0 invs (by rw [hd0]; decide) (by rw [hp0]; decide)
  exact ⟨hd, hp, fun old => heatLevelSwitch_table_of_lt L _ old hd,
    fun old => heatLevelSwitch_table_of_lt L _ old hp⟩

/-- Claim C13 at a concrete run from the boot state: five driver edges on port F
(one of them with the passenger's edge pending too), a port B edge and three
passenger edges, with Setpoint Task turns in between; the counters end at 2
and 3. -/
theorem C13_cycle_counters_stay_in_domain_witness :
    bootSys.DriverState = 0 ∧ bootSys.PassengerState = 0 ∧
    (invokeAll sampleLevels bootSys
      [Invocation.portF 1, Invocation.portF 17, Invocation.portF 16, Invocation.setpoint,
       Invocation.portF 1, Invocation.portB 1, Invocation.portF 16, Invocation.portF 1,
       Invocation.setpoint, Invocation.portF 1, Invocation.portF 16]).DriverState = 2 ∧
    (invokeAll sampleLevels bootSys
      [Invocation.portF 1, Invocation.portF 17, Invocation.portF 16, Invocation.setpoint,
       Invocation.portF 1, Invocation.portB 1, Invocation.portF 16, Invocation.portF 1,
       Invocation.setpoint, Invocation.portF 1, Invocation.portF 16]).PassengerState = 3 ∧
    (invokeAll sampleLevels bootSys
      [Invocation.portF 1, Invocation.portF 17, Invocation.portF 16, Invocation.setpoint,
       Invocation.portF 1, Invocation.portB 1, Invocation.portF 16, Invocation.portF 1,
       Invocation.setpoint, Invocation.portF 1, Invocation.portF 16]).DriverState < 4 :=
  ⟨rfl, rfl, by decide, by decide,
   (C13_cycle_counters_stay_in_domain sampleLevels bootSys rfl rfl
      [Invocation.portF 1, Invocation.portF 17, Invocation.portF 16, Invocation.setpoint,
       Invocation.portF 1, Invocation.portB 1, Invocation.portF 16, Invocation.portF 1,
       Invocation.setpoint, Invocation.portF 1, Invocation.portF 16]).1⟩

/-- Claim C15.  A button interrupt in which only one seat's edge is pending changes
that seat's cycle counter and leaves the other seat's cycle counter and both
desired levels as they are; a Setpoint Task wake in which only one seat's event
bit is set stores that seat's desired level and leaves the other seat's desired
level and both cycle counters as they are. -/
theorem C15_seats_are_independent (L : HeatLevels) (s : Sys) :
    (s.GPIO_PORTF_RIS_REG &&& (1 <<< 0) ≠ 0 → s.GPIO_PORTF_RIS_REG &&& (1 <<< 4) = 0 →
      (GPIOPortF_Handler s).DriverState = (s.DriverState + 1) % 4 ∧
      (GPIOPortF_Handler s).DesiredTempDriver = s.DesiredTempDriver ∧
      (GPIOPortF_Handler s).PassengerState = s.PassengerState ∧
      (GPIOPortF_Handler s).DesiredTempPassenger = s.DesiredTempPassenger) ∧
    (s.GPIO_PORTF_RIS_REG &&& (1 <<< 0) = 0 → s.GPIO_PORTF_RIS_REG &&& (1 <<< 4) ≠ 0 →
      (GPIOPortF_Handler s).PassengerState = (s.PassengerState + 1) % 4 ∧
      (GPIOPortF_Handler s).DesiredTempPassenger = s.DesiredTempPassenger ∧
      (GPIOPortF_Handler s).DriverState = s.DriverState ∧
      (GPIOPortF_Handler s).DesiredTempDriver = s.DesiredTempDriver) ∧
    (s.GPIO_PORTB_RIS_REG &&& (1 <<< 0) ≠ 0 →
      (GPIOPortB_Handler s).DriverState = (s.DriverState + 1) % 4 ∧
      (GPIOPortB_Handler s).DesiredTempDriver = s.DesiredTempDriver ∧
      (GPIOPortB_Handler s).PassengerState = s.PassengerState ∧
      (GPIOPortB_Handler s).DesiredTempPassenger = s.DesiredTempPassenger) ∧
    (s.eventTempSet &&& mainSW1_INTERRUPT_BIT ≠ 0 → s.eventTempSet &&& mainSW2_INTERRUPT_BIT = 0 →
      ∃ s', vTempSettingTask L s = some s' ∧
        s'.DesiredTempDriver = heatLevelSwitch L s.DriverState s.DesiredTempDriver ∧
        s'.DriverState = s.DriverState ∧
        s'.PassengerState = s.PassengerState ∧
        s'.DesiredTempPassenger = s.DesiredTempPassenger) ∧
    (s.eventTempSet &&& mainSW1_INTERRUPT_BIT = 0 → s.eventTempSet &&& mainSW2_INTERRUPT_BIT ≠ 0 →
      ∃ s', vTempSettingTask L s = some s' ∧
        s'.DesiredTempPassenger = heatLevelSwitch L s.PassengerState s.DesiredTempPassenger ∧
        s'.PassengerState = s.PassengerState ∧
        s'.DriverState = s.DriverState ∧
        s'.DesiredTempDriver = s.DesiredTempDriver) := by
  refine ⟨?_, ?_, ?_, ?_, ?_⟩
  · intro h0 _
    rw [GPIOPortF_Handler_driver s ((and_one_shiftLeft_ne_zero_iff _ _).mp h0)]
    exact ⟨rfl, rfl, rfl, rfl⟩
  · intro h0 h4
    rw [GPIOPortF_Handler_passenger s ((and_one_shiftLeft_eq_zero_iff _ _).mp h0)
      ((and_one_shiftLeft_ne_zero_iff _ _).mp h4)]
    exact ⟨rfl, rfl, rfl, rfl⟩
  · intro h0
    rw [GPIOPortB_Handler_driver s ((and_one_shiftLeft_ne_zero_iff _ _).mp h0)]
    exact ⟨rfl, rfl, rfl, rfl⟩
  · intro h0 h1
    have b0 : s.eventTempSet.testBit 0 = true := (and_one_shiftLeft_ne_zero_iff _ 0).mp h0
    have b1 : s.eventTempSet.testBit 1 = false := (and_one_shiftLeft_eq_zero_iff _ 1).mp h1
    refine ⟨_, vTempSettingTask_woken L s (Or.inl b0), ?_, rfl, rfl, ?_⟩
    · show (if s.eventTempSet.testBit 0 = true then
        heatLevelSwitch L s.DriverState s.DesiredTempDriver else s.DesiredTempDriver) = _
      rw [if_pos b0]
    · show (if s.eventTempSet.testBit 1 = true then
        heatLevelSwitch L s.PassengerState s.DesiredTempPassenger
        else s.DesiredTempPassenger) = _
      rw [b1]
      rfl
  · intro h0 h1
    have b0 : s.eventTempSet.testBit 0 = false := (and_one_shiftLeft_eq_zero_iff _ 0).mp h0
    have b1 : s.eventTempSet.testBit 1 = true := (and_one_shiftLeft_ne_zero_iff _ 1).mp h1
    refine ⟨_, vTempSettingTask_woken L s (Or.inr b1), ?_, rfl, rfl, ?_⟩
    · show (if s.eventTempSet.testBit 1 = true then
        heatLevelSwitch L s.PassengerState s.DesiredTempPassenger
        else s.DesiredTempPassenger) = _
      rw [if_pos b1]
    · show (if s.eventTempSet.testBit 0 = true then
        heatLevelSwitch L s.DriverState s.DesiredTempDriver else s.DesiredTempDriver) = _
      rw [b0]
      rfl

/-- Claim C15 at the concrete state `oneSeatSys`: the port F interrupt takes the
driver's counter from 1 to 2 and leaves the passenger's at 2 and its level at 0;
the wake stores 30 (Medium) for the passenger and leaves the driver's level at 25
and counter at 1. -/
theorem C15_seats_are_independent_witness :
    ((GPIOPortF_Handler oneSeatSys).DriverState = (1 + 1) % 4 ∧
      (GPIOPortF_Handler oneSeatSys).DesiredTempDriver = 25 ∧
      (GPIOPortF_Handler oneSeatSys).PassengerState = 2 ∧
      (GPIOPortF_Handler oneSeatSys).DesiredTempPassenger = 0) ∧
    (∃ s', vTempSettingTask sampleLevels oneSeatSys = some s' ∧
      s'.DesiredTempPassenger = heatLevelSwitch sampleLevels 2 0 ∧
      s'.PassengerState = 2 ∧ s'.DriverState = 1 ∧ s'.DesiredTempDriver = 25) ∧
    heatLevelSwitch sampleLevels 2 0 = 30 :=
  ⟨(C15_seats_are_independent sampleLevels oneSeatSys).1 (by decide) (by decide),
   (C15_seats_are_independent sampleLevels oneSeatSys).2.2.2.2 (by decide) (by decide),
   rfl⟩

/-- Claim C14.  On every execution path of a pass of the Sampling, Setpoint, Heater
Control, Display and Runtime Monitor task bodies - for every seat selector,
every value returned by the event wait and every outcome of the takes and
receives - at most one mutex is held at any point: each successful take is
followed by the give of the same mutex before the task takes another mutex,
sends to or receives from a queue, waits for the event bits or delays.  (A
sequence that takes a second mutex while holding one, or delays while holding
one, does not pass the same check.) -/
theorem C14_at_most_one_mutex_held (SeatSelect xEventGroupValue : Nat)
    (b1 b2 b3 b4 : Bool) :
    OneMutexAtATime (vTempReadingTask_sync SeatSelect b1) ∧
    OneMutexAtATime (vTempSettingTask_sync xEventGroupValue b1 b2) ∧
    OneMutexAtATime (vHeaterControllerTask_sync SeatSelect b1 b2) ∧
    OneMutexAtATime (vDisplayTask_sync SeatSelect b1 b2 b3 b4) ∧
    OneMutexAtATime (vRunTimeMeasurementsTask_sync b1) ∧
    ¬ OneMutexAtATime
      [SyncOp.take Mutex.CurrentTempMutexDriver true,
       SyncOp.take Mutex.DesiredTempMutexDriver true,
       SyncOp.give Mutex.DesiredTempMutexDriver, SyncOp.give Mutex.CurrentTempMutexDriver] ∧
    ¬ OneMutexAtATime
      [SyncOp.take Mutex.UARTMutex true, SyncOp.delay, SyncOp.give Mutex.UARTMutex] := by
  refine ⟨?_, ?_, ?_, ?_, ?_, by unfold OneMutexAtATime; decide,
    by unfold OneMutexAtATime; decide⟩
  · unfold OneMutexAtATime vTempReadingTask_sync
    cases b1 <;> split_ifs <;> rfl
  · unfold OneMutexAtATime vTempSettingTask_sync
    cases b1 <;> cases b2 <;> split_ifs <;> rfl
  · unfold OneMutexAtATime vHeaterControllerTask_sync
    cases b1 <;> cases b2 <;> split_ifs <;> rfl
  · unfold OneMutexAtATime vDisplayTask_sync
    cases b1 <;> cases b2 <;> cases b3 <;> cases b4 <;> split_ifs <;> rfl
  · unfold OneMutexAtATime vRunTimeMeasurementsTask_sync
    cases b1 <;> rfl

end SeatHeater
